import Mathlib

/-!
Verification of the lyktparad HTML-generation pipeline
(`tools/generate_html.py`, `tools/extract_html_from_c.py`,
`tools/extract_html_template.py`, `src/plugins/convert_file_to_c_string.py`).

Texts are modelled as `List Char`.  Python `str.replace` and the
`re.sub(r'(anchor)', content + '\n\1', s, count=1)` calls (fixed literal
anchor patterns; the inserted fixed fragments contain no backslash, so the
replacement text is taken literally) are modelled by `pyReplace` and
`pyReplaceOnce` below.  File-system access is modelled by the `Fs` record;
UTF-8 decoding is implemented on byte lists.
-/

set_option maxRecDepth 40000

namespace Lyktparad

/-- Scanner for Python `str.replace` with non-empty needle `n :: ns`:
replaces every non-overlapping occurrence, left to right, never rescanning
replaced output.  `skip` counts characters still to drop because they belong
to the occurrence just replaced. -/
def pyReplaceAux (n : Char) (ns repl : List Char) : Nat → List Char → List Char
  | _, [] => []
  | Nat.succ k, _ :: rest => pyReplaceAux n ns repl k rest
  | 0, c :: rest =>
    if c = n ∧ ns.isPrefixOf rest then
      repl ++ pyReplaceAux n ns repl ns.length rest
    else
      c :: pyReplaceAux n ns repl 0 rest

/-- Python `l.replace(needle, repl)`.  With an empty needle Python inserts
`repl` between all characters and at both ends. -/
def pyReplace (needle repl l : List Char) : List Char :=
  match needle with
  | [] => repl ++ l.flatMap (fun c => c :: repl)
  | n :: ns => pyReplaceAux n ns repl 0 l

/-- Replace only the first (leftmost) occurrence, as
`re.sub(pattern, repl, s, count=1)` does for a literal pattern. -/
def pyReplaceOnceAux (n : Char) (ns repl : List Char) : List Char → List Char
  | [] => []
  | c :: rest =>
    if c = n ∧ ns.isPrefixOf rest then
      repl ++ rest.drop ns.length
    else
      c :: pyReplaceOnceAux n ns repl rest

def pyReplaceOnce (needle repl l : List Char) : List Char :=
  match needle with
  | [] => repl ++ l
  | n :: ns => pyReplaceOnceAux n ns repl l

/-- Python substring test `needle in l`. -/
def occursB (needle : List Char) : List Char → Bool
  | [] => needle.isEmpty
  | c :: rest => needle.isPrefixOf (c :: rest) || occursB needle rest

/-- Count non-overlapping occurrences of `n :: ns`, leftmost first
(the count used by Python `str.count`). -/
def countOccAux (n : Char) (ns : List Char) : Nat → List Char → Nat
  | _, [] => 0
  | Nat.succ k, _ :: rest => countOccAux n ns k rest
  | 0, c :: rest =>
    if c = n ∧ ns.isPrefixOf rest then
      countOccAux n ns ns.length rest + 1
    else
      countOccAux n ns 0 rest

def countOcc (needle l : List Char) : Nat :=
  match needle with
  | [] => l.length + 1
  | n :: ns => countOccAux n ns 0 l

/-! ### The escaping routines

`escape_c_string` (identical in `tools/generate_html.py` and
`src/plugins/convert_file_to_c_string.py` up to the error message):
escape backslash, then double quote, then newline, then carriage return,
then tab, then fail if the result contains a NUL byte. -/

def nulErrMsg : List Char :=
  ("Content contains null bytes, cannot be converted to C string").data

def escape_c_string (content : List Char) : Except (List Char) (List Char) :=
  let c5 := pyReplace ['\t'] ['\\', 't']
    (pyReplace ['\r'] ['\\', 'r']
      (pyReplace ['\n'] ['\\', 'n']
        (pyReplace ['"'] ['\\', '"']
          (pyReplace ['\\'] ['\\', '\\'] content))))
  if '\x00' ∈ c5 then Except.error nulErrMsg else Except.ok c5

/-- `unescape_c_string` from `tools/extract_html_from_c.py` (the copy in
`tools/extract_html_template.py` is identical): sequential replaces with the
double-backslash sequence handled first. -/
def unescape_c_string (content : List Char) : List Char :=
  pyReplace ['\\', 't'] ['\t']
    (pyReplace ['\\', 'r'] ['\r']
      (pyReplace ['\\', 'n'] ['\n']
        (pyReplace ['\\', '"'] ['"']
          (pyReplace ['\\', '\\'] ['\\'] content))))

/-- Per-character view of the full escape chain. -/
def escChar1 (c : Char) : List Char :=
  if c = '\\' then ['\\', '\\']
  else if c = '"' then ['\\', '"']
  else if c = '\n' then ['\\', 'n']
  else if c = '\r' then ['\\', 'r']
  else if c = '\t' then ['\\', 't']
  else [c]

/-- Per-character view after undoing the quote escapes. -/
def escChar2 (c : Char) : List Char :=
  if c = '"' then ['"']
  else if c = '\n' then ['\\', 'n']
  else if c = '\r' then ['\\', 'r']
  else if c = '\t' then ['\\', 't']
  else [c]

/-- Per-character view after additionally undoing the newline escapes. -/
def escChar3 (c : Char) : List Char :=
  if c = '"' then ['"']
  else if c = '\n' then ['\n']
  else if c = '\r' then ['\\', 'r']
  else if c = '\t' then ['\\', 't']
  else [c]

/-- Per-character view after additionally undoing the carriage-return
escapes. -/
def escChar4 (c : Char) : List Char :=
  if c = '"' then ['"']
  else if c = '\n' then ['\n']
  else if c = '\r' then ['\r']
  else if c = '\t' then ['\\', 't']
  else [c]

theorem pyReplace_single (a : Char) (repl : List Char) (l : List Char) :
    pyReplace [a] repl l = l.flatMap (fun c => if c = a then repl else [c]) := by
  induction l with
  | nil => rfl
  | cons c rest ih =>
    by_cases h : c = a
    · simp [pyReplace, pyReplaceAux, h] at ih ⊢
      exact ih
    · simp [pyReplace, pyReplaceAux, h] at ih ⊢
      exact ih

theorem escape_chain (l : List Char) :
    pyReplace ['\t'] ['\\', 't']
      (pyReplace ['\r'] ['\\', 'r']
        (pyReplace ['\n'] ['\\', 'n']
          (pyReplace ['"'] ['\\', '"']
            (pyReplace ['\\'] ['\\', '\\'] l)))) = l.flatMap escChar1 := by
  rw [pyReplace_single, pyReplace_single, pyReplace_single, pyReplace_single,
    pyReplace_single]
  simp only [List.flatMap_assoc]
  refine congrArg (List.flatMap l) (funext fun c => ?_)
  by_cases h1 : c = '\\'
  · subst h1; rfl
  · by_cases h2 : c = '"'
    · subst h2; rfl
    · by_cases h3 : c = '\n'
      · subst h3; rfl
      · by_cases h4 : c = '\r'
        · subst h4; rfl
        · by_cases h5 : c = '\t'
          · subst h5; rfl
          · simp [escChar1, h1, h2, h3, h4, h5]

theorem escChar1_nul (a : Char) : '\x00' ∈ escChar1 a ↔ a = '\x00' := by
  by_cases h1 : a = '\\'
  · subst h1; decide
  · by_cases h2 : a = '"'
    · subst h2; decide
    · by_cases h3 : a = '\n'
      · subst h3; decide
      · by_cases h4 : a = '\r'
        · subst h4; decide
        · by_cases h5 : a = '\t'
          · subst h5; decide
          · simp [escChar1, h1, h2, h3, h4, h5, eq_comm]

theorem nul_mem_flatMap_escChar1 (t : List Char) :
    '\x00' ∈ t.flatMap escChar1 ↔ '\x00' ∈ t := by
  simp only [List.mem_flatMap]
  constructor
  · rintro ⟨a, ha, hmem⟩
    rw [escChar1_nul] at hmem
    exact hmem ▸ ha
  · intro h
    exact ⟨'\x00', h, by decide⟩

theorem escape_c_string_eq (t : List Char) :
    escape_c_string t =
      if '\x00' ∈ t then Except.error nulErrMsg
      else Except.ok (t.flatMap escChar1) := by
  show (if '\x00' ∈ pyReplace ['\t'] ['\\', 't']
      (pyReplace ['\r'] ['\\', 'r']
        (pyReplace ['\n'] ['\\', 'n']
          (pyReplace ['"'] ['\\', '"']
            (pyReplace ['\\'] ['\\', '\\'] t)))) then _ else _) = _
  rw [escape_chain]
  by_cases h : '\x00' ∈ t
  · rw [if_pos ((nul_mem_flatMap_escChar1 t).mpr h), if_pos h]
  · rw [if_neg (fun hc => h ((nul_mem_flatMap_escChar1 t).mp hc)), if_neg h]

/-- Generic step of the unescape chain: scanning a block-structured text
`t.flatMap f` with the two-character needle `['\\', x]`, where every block is
either the matched block `['\\', x]` (rewritten to `r`), an untouched escape
block `['\\', y]` with `y ≠ '\\'` and `x ≠ y`, or a single non-backslash
character. -/
theorem pyReplaceAux_blocks (x : Char) (r : List Char) (f g : Char → List Char)
    (t : List Char)
    (h : ∀ c ∈ t,
      (f c = ['\\', x] ∧ g c = r)
      ∨ (∃ y, y ≠ '\\' ∧ x ≠ y ∧ f c = ['\\', y] ∧ g c = ['\\', y])
      ∨ (∃ d, d ≠ '\\' ∧ f c = [d] ∧ g c = [d])) :
    pyReplaceAux '\\' [x] r 0 (t.flatMap f) = t.flatMap g := by
  induction t with
  | nil => rfl
  | cons c rest ih =>
    have hrest := ih (fun a ha => h a (List.mem_cons_of_mem c ha))
    rcases h c (List.mem_cons_self c rest) with ⟨h1, h2⟩ | ⟨y, hy, hxy, h1, h2⟩ |
      ⟨d, hd, h1, h2⟩
    · rw [List.flatMap_cons, List.flatMap_cons, h1, h2, List.cons_append,
        List.cons_append, List.nil_append]
      simp [pyReplaceAux, List.isPrefixOf, hrest]
    · rw [List.flatMap_cons, List.flatMap_cons, h1, h2, List.cons_append,
        List.cons_append, List.nil_append]
      have hxyb : (x == y) = false := beq_eq_false_iff_ne.mpr hxy
      simp [pyReplaceAux, List.isPrefixOf, hxyb, hy, hrest]
    · rw [List.flatMap_cons, List.flatMap_cons, h1, h2, List.cons_append,
        List.nil_append]
      simp [pyReplaceAux, hd, hrest]

theorem unescape_stage1 (t : List Char) (hb : '\\' ∉ t) :
    pyReplace ['\\', '\\'] ['\\'] (t.flatMap escChar1) = t.flatMap escChar1 := by
  refine pyReplaceAux_blocks '\\' ['\\'] escChar1 escChar1 t (fun c hc => ?_)
  have hcb : c ≠ '\\' := fun h => hb (h ▸ hc)
  by_cases h2 : c = '"'
  · subst h2; exact Or.inr (Or.inl ⟨'"', by decide, by decide, rfl, rfl⟩)
  · by_cases h3 : c = '\n'
    · subst h3; exact Or.inr (Or.inl ⟨'n', by decide, by decide, rfl, rfl⟩)
    · by_cases h4 : c = '\r'
      · subst h4; exact Or.inr (Or.inl ⟨'r', by decide, by decide, rfl, rfl⟩)
      · by_cases h5 : c = '\t'
        · subst h5; exact Or.inr (Or.inl ⟨'t', by decide, by decide, rfl, rfl⟩)
        · refine Or.inr (Or.inr ⟨c, hcb, ?_, ?_⟩) <;>
            simp [escChar1, hcb, h2, h3, h4, h5]

theorem unescape_stage2 (t : List Char) (hb : '\\' ∉ t) :
    pyReplace ['\\', '"'] ['"'] (t.flatMap escChar1) = t.flatMap escChar2 := by
  refine pyReplaceAux_blocks '"' ['"'] escChar1 escChar2 t (fun c hc => ?_)
  have hcb : c ≠ '\\' := fun h => hb (h ▸ hc)
  by_cases h2 : c = '"'
  · subst h2; exact Or.inl ⟨rfl, rfl⟩
  · by_cases h3 : c = '\n'
    · subst h3; exact Or.inr (Or.inl ⟨'n', by decide, by decide, rfl, rfl⟩)
    · by_cases h4 : c = '\r'
      · subst h4; exact Or.inr (Or.inl ⟨'r', by decide, by decide, rfl, rfl⟩)
      · by_cases h5 : c = '\t'
        · subst h5; exact Or.inr (Or.inl ⟨'t', by decide, by decide, rfl, rfl⟩)
        · refine Or.inr (Or.inr ⟨c, hcb, ?_, ?_⟩) <;>
            simp [escChar1, escChar2, hcb, h2, h3, h4, h5]

theorem unescape_stage3 (t : List Char) (hb : '\\' ∉ t) :
    pyReplace ['\\', 'n'] ['\n'] (t.flatMap escChar2) = t.flatMap escChar3 := by
  refine pyReplaceAux_blocks 'n' ['\n'] escChar2 escChar3 t (fun c hc => ?_)
  have hcb : c ≠ '\\' := fun h => hb (h ▸ hc)
  by_cases h2 : c = '"'
  · subst h2; exact Or.inr (Or.inr ⟨'"', by decide, rfl, rfl⟩)
  · by_cases h3 : c = '\n'
    · subst h3; exact Or.inl ⟨rfl, rfl⟩
    · by_cases h4 : c = '\r'
      · subst h4; exact Or.inr (Or.inl ⟨'r', by decide, by decide, rfl, rfl⟩)
      · by_cases h5 : c = '\t'
        · subst h5; exact Or.inr (Or.inl ⟨'t', by decide, by decide, rfl, rfl⟩)
        · refine Or.inr (Or.inr ⟨c, hcb, ?_, ?_⟩) <;>
            simp [escChar2, escChar3, hcb, h2, h3, h4, h5]

theorem unescape_stage4 (t : List Char) (hb : '\\' ∉ t) :
    pyReplace ['\\', 'r'] ['\r'] (t.flatMap escChar3) = t.flatMap escChar4 := by
  refine pyReplaceAux_blocks 'r' ['\r'] escChar3 escChar4 t (fun c hc => ?_)
  have hcb : c ≠ '\\' := fun h => hb (h ▸ hc)
  by_cases h2 : c = '"'
  · subst h2; exact Or.inr (Or.inr ⟨'"', by decide, rfl, rfl⟩)
  · by_cases h3 : c = '\n'
    · subst h3; exact Or.inr (Or.inr ⟨'\n', by decide, rfl, rfl⟩)
    · by_cases h4 : c = '\r'
      · subst h4; exact Or.inl ⟨rfl, rfl⟩
      · by_cases h5 : c = '\t'
        · subst h5; exact Or.inr (Or.inl ⟨'t', by decide, by decide, rfl, rfl⟩)
        · refine Or.inr (Or.inr ⟨c, hcb, ?_, ?_⟩) <;>
            simp [escChar3, escChar4, hcb, h2, h3, h4, h5]

theorem unescape_stage5 (t : List Char) (hb : '\\' ∉ t) :
    pyReplace ['\\', 't'] ['\t'] (t.flatMap escChar4) = t := by
  have := pyReplaceAux_blocks 't' ['\t'] escChar4 (fun c => [c]) t (fun c hc => ?_)
  · rw [pyReplace]
    rw [this, List.flatMap_singleton']
  · have hcb : c ≠ '\\' := fun h => hb (h ▸ hc)
    by_cases h2 : c = '"'
    · subst h2; exact Or.inr (Or.inr ⟨'"', by decide, rfl, rfl⟩)
    · by_cases h3 : c = '\n'
      · subst h3; exact Or.inr (Or.inr ⟨'\n', by decide, rfl, rfl⟩)
      · by_cases h4 : c = '\r'
        · subst h4; exact Or.inr (Or.inr ⟨'\r', by decide, rfl, rfl⟩)
        · by_cases h5 : c = '\t'
          · subst h5; exact Or.inl ⟨rfl, rfl⟩
          · refine Or.inr (Or.inr ⟨c, hcb, ?_, ?_⟩) <;>
              simp [escChar4, hcb, h2, h3, h4, h5]

/-- Round trip on backslash-free texts: unescaping the escaped form restores
the original. -/
theorem unescape_escape_of_no_backslash (t : List Char) (hb : '\\' ∉ t) :
    unescape_c_string (t.flatMap escChar1) = t := by
  rw [unescape_c_string, unescape_stage1 t hb, unescape_stage2 t hb,
    unescape_stage3 t hb, unescape_stage4 t hb]
  exact unescape_stage5 t hb

theorem not_occurs_cons {n : Char} {ns : List Char} {c : Char} {rest : List Char}
    (h : occursB (n :: ns) (c :: rest) = false) :
    ¬(c = n ∧ ns.isPrefixOf rest) ∧ occursB (n :: ns) rest = false := by
  rw [occursB, Bool.or_eq_false_iff] at h
  refine ⟨?_, h.2⟩
  rintro ⟨rfl, h2⟩
  rw [List.isPrefixOf_cons₂, beq_self_eq_true, Bool.true_and] at h
  exact absurd h.1 (by simp [h2])

theorem pyReplace_of_not_occurs (n : Char) (ns r : List Char) (t : List Char)
    (h : occursB (n :: ns) t = false) : pyReplace (n :: ns) r t = t := by
  rw [pyReplace]
  induction t with
  | nil => rfl
  | cons c rest ih =>
    obtain ⟨h1, h2⟩ := not_occurs_cons h
    rw [pyReplaceAux, if_neg h1, ih h2]

theorem pyReplaceOnce_of_not_occurs (n : Char) (ns r : List Char) (t : List Char)
    (h : occursB (n :: ns) t = false) : pyReplaceOnce (n :: ns) r t = t := by
  rw [pyReplaceOnce]
  induction t with
  | nil => rfl
  | cons c rest ih =>
    obtain ⟨h1, h2⟩ := not_occurs_cons h
    rw [pyReplaceOnceAux, if_neg h1, ih h2]

theorem countOcc_of_not_occurs (n : Char) (ns : List Char) (t : List Char)
    (h : occursB (n :: ns) t = false) : countOcc (n :: ns) t = 0 := by
  rw [countOcc]
  induction t with
  | nil => rfl
  | cons c rest ih =>
    obtain ⟨h1, h2⟩ := not_occurs_cons h
    rw [countOccAux, if_neg h1, ih h2]

theorem occursB_of_countOcc_pos (n : Char) (ns : List Char) (t : List Char)
    (h : 0 < countOcc (n :: ns) t) : occursB (n :: ns) t = true := by
  by_contra hc
  rw [countOcc_of_not_occurs n ns t (Bool.eq_false_iff.mpr hc)] at h
  exact Nat.lt_irrefl 0 h

/-- Replacing the first occurrence decomposes the text around that
occurrence. -/
theorem pyReplaceOnce_decomp (n : Char) (ns r : List Char) (t : List Char)
    (h : occursB (n :: ns) t = true) :
    ∃ pre suf, t = pre ++ (n :: ns) ++ suf ∧
      pyReplaceOnce (n :: ns) r t = pre ++ r ++ suf := by
  rw [pyReplaceOnce]
  induction t with
  | nil => exact absurd h (by simp [occursB])
  | cons c rest ih =>
    by_cases hc : c = n ∧ ns.isPrefixOf rest
    · obtain ⟨e1, e2⟩ := hc
      obtain ⟨suf, hsuf⟩ := List.isPrefixOf_iff_prefix.mp e2
      subst e1
      refine ⟨[], suf, ?_, ?_⟩
      · rw [← hsuf]; simp
      · rw [pyReplaceOnceAux, if_pos ⟨rfl, e2⟩, ← hsuf, List.drop_left]
        simp
    · rw [occursB] at h
      have h1 : List.isPrefixOf (n :: ns) (c :: rest) = false := by
        rw [List.isPrefixOf_cons₂]
        rcases Bool.eq_false_or_eq_true (n == c) with hb | hb
        · rw [hb, Bool.true_and]
          by_contra hp'
          rw [Bool.not_eq_false] at hp'
          exact hc ⟨(beq_iff_eq.mp hb).symm, hp'⟩
        · rw [hb, Bool.false_and]
      rw [h1, Bool.false_or] at h
      obtain ⟨pre, suf, hdec, hres⟩ := ih h
      refine ⟨c :: pre, suf, by rw [hdec]; rfl, ?_⟩
      rw [pyReplaceOnceAux, if_neg hc, hres]
      rfl

/-! ### Quote safety of escaped output (machinery for the single-line /
quoting property) -/

/-- `quotesEscapedAux prev l = true` iff every double quote in `l` is
immediately preceded by a backslash, where `prev` is the character preceding
`l`. -/
def quotesEscapedAux : Char → List Char → Bool
  | _, [] => true
  | prev, c :: rest => ((c != '"') || (prev == '\\')) && quotesEscapedAux c rest

/-- Every double quote in `l` is immediately preceded by a backslash (a quote
in first position has no preceding character, hence the non-backslash dummy
predecessor). -/
def quotesEscaped (l : List Char) : Bool :=
  quotesEscapedAux ' ' l

theorem quotesEscapedAux_escaped (t : List Char) :
    ∀ prev, quotesEscapedAux prev (t.flatMap escChar1) = true := by
  induction t with
  | nil => intro prev; rfl
  | cons c rest ih =>
    intro prev
    rw [List.flatMap_cons]
    by_cases h1 : c = '\\'
    · subst h1; simp [escChar1, quotesEscapedAux, ih]
    · by_cases h2 : c = '"'
      · subst h2; simp [escChar1, quotesEscapedAux, ih]
      · by_cases h3 : c = '\n'
        · subst h3; simp [escChar1, quotesEscapedAux, ih]
        · by_cases h4 : c = '\r'
          · subst h4; simp [escChar1, quotesEscapedAux, ih]
          · by_cases h5 : c = '\t'
            · subst h5; simp [escChar1, quotesEscapedAux, ih]
            · have hq : (c != '"') = true := bne_iff_ne.mpr h2
              simp [escChar1, h1, h2, h3, h4, h5, quotesEscapedAux, hq, ih]

theorem quotesEscaped_escaped (t : List Char) :
    quotesEscaped (t.flatMap escChar1) = true :=
  quotesEscapedAux_escaped t ' '

theorem ctl_not_mem_escChar1 (x : Char)
    (hx : x = '\n' ∨ x = '\r' ∨ x = '\t') (a : Char) : x ∉ escChar1 a := by
  by_cases h1 : a = '\\'
  · subst h1; rcases hx with rfl | rfl | rfl <;> decide
  · by_cases h2 : a = '"'
    · subst h2; rcases hx with rfl | rfl | rfl <;> decide
    · by_cases h3 : a = '\n'
      · subst h3; rcases hx with rfl | rfl | rfl <;> decide
      · by_cases h4 : a = '\r'
        · subst h4; rcases hx with rfl | rfl | rfl <;> decide
        · by_cases h5 : a = '\t'
          · subst h5; rcases hx with rfl | rfl | rfl <;> decide
          · simp only [escChar1, h1, h2, h3, h4, h5, if_false, List.mem_singleton]
            rintro rfl
            rcases hx with rfl | rfl | rfl
            · exact h3 rfl
            · exact h4 rfl
            · exact h5 rfl

theorem ctl_not_mem_escaped (t : List Char) (x : Char)
    (hx : x = '\n' ∨ x = '\r' ∨ x = '\t') : x ∉ t.flatMap escChar1 := by
  rw [List.mem_flatMap]
  rintro ⟨a, _, hmem⟩
  exact ctl_not_mem_escChar1 x hx a hmem

/-! ### Plugins, display names and dropdown generation -/

/-- A discovered plugin (`collect_plugin_files` result entry). -/
structure Plugin where
  name : List Char
  html_file : Option (List Char)
  css_file : Option (List Char)
  js_file : Option (List Char)
deriving DecidableEq

/-- HTML escaping used for attribute values: `&`, `<`, `>`, `"`, replaced in
that order. -/
def htmlEscapeAttr (s : List Char) : List Char :=
  pyReplace ['"'] (("&quot;").data)
    (pyReplace ['>'] (("&gt;").data)
      (pyReplace ['<'] (("&lt;").data)
        (pyReplace ['&'] (("&amp;").data) s)))

/-- HTML escaping used for display names (text content): `&`, `<`, `>` only —
the double quote is left alone. -/
def htmlEscapeText (s : List Char) : List Char :=
  pyReplace ['>'] (("&gt;").data)
    (pyReplace ['<'] (("&lt;").data)
      (pyReplace ['&'] (("&amp;").data) s))

/-- Python `str.isspace` characters relevant to `str.split()`. -/
def pyIsSpace (c : Char) : Bool :=
  (c == ' ') || (c == '\t') || (c == '\n') || (c == '\r') ||
    (c == '\x0b') || (c == '\x0c')

def pySplitWsAux : List Char → List Char → List (List Char)
  | acc, [] => if acc.isEmpty then [] else [acc.reverse]
  | acc, c :: rest =>
    if pyIsSpace c then
      if acc.isEmpty then pySplitWsAux [] rest
      else acc.reverse :: pySplitWsAux [] rest
    else pySplitWsAux (c :: acc) rest

/-- Python `str.split()` without arguments: split on whitespace runs,
dropping empty words. -/
def pySplitWs (s : List Char) : List (List Char) :=
  pySplitWsAux [] s

/-- Python `str.capitalize`: first character upper-cased, the rest
lower-cased (ASCII model). -/
def pyCapitalize : List Char → List Char
  | [] => []
  | c :: rest => c.toUpper :: rest.map Char.toLower

/-- `format_plugin_display_name`: underscores to spaces, then each
whitespace-separated word capitalized and re-joined with single spaces. -/
def format_plugin_display_name (name : List Char) : List Char :=
  if name.isEmpty then []
  else
    List.intercalate [' ']
      ((pySplitWs (pyReplace ['_'] [' '] name)).map pyCapitalize)

/-- One `<option>` element of the dropdown; `isFirst` reflects the
`len(options) == 0` test marking the first plugin as selected. -/
def mkOption (isFirst : Bool) (p : Plugin) : List Char :=
  ("<option value=\"").data ++ htmlEscapeAttr p.name ++ ("\"").data ++
    (if isFirst then (" selected").data else []) ++ (">").data ++
    htmlEscapeText (format_plugin_display_name p.name) ++ ("</option>").data

/-- `generate_dropdown_html`: empty list yields the empty string, otherwise a
`<select>` element with one option per plugin in list order, newline
separated. -/
def dropdownPre : List Char :=
  ("<select id=\"plugin-selector\" class=\"plugin-selector\" aria-label=\"Select plugin\">\n").data

def dropdownSuf : List Char :=
  ("\n</select>").data

def generate_dropdown_html (plugins : List Plugin) : List Char :=
  if plugins.isEmpty then []
  else
    let options := plugins.foldl (fun acc p => acc ++ [mkOption acc.isEmpty p]) []
    dropdownPre ++ List.intercalate ['\n'] options ++ dropdownSuf

/-- `generate_basic_plugin_ui`: the synthesized control UI for a plugin
without custom HTML. -/
def generate_basic_plugin_ui (plugin_name : List Char) : List Char :=
  let p := htmlEscapeAttr plugin_name
  let d := htmlEscapeText (format_plugin_display_name plugin_name)
  ("<div class=\"basic-plugin-ui\">\n    <h2 class=\"basic-plugin-ui-title\">").data
    ++ d ++
  ("</h2>\n    <div class=\"basic-plugin-ui-status\">\n        <span class=\"basic-plugin-ui-status-label\">Status:</span>\n        <span class=\"basic-plugin-ui-status-value\" id=\"basic-plugin-status-").data
    ++ p ++
  ("\">Inactive</span>\n    </div>\n    <div class=\"basic-plugin-ui-controls\">\n        <button class=\"basic-plugin-btn basic-plugin-btn-start\" id=\"basic-plugin-start-").data
    ++ p ++ ("\" data-plugin-name=\"").data ++ p ++
  ("\">START</button>\n        <button class=\"basic-plugin-btn basic-plugin-btn-pause\" id=\"basic-plugin-pause-").data
    ++ p ++ ("\" data-plugin-name=\"").data ++ p ++
  ("\">PAUSE</button>\n        <button class=\"basic-plugin-btn basic-plugin-btn-reset\" id=\"basic-plugin-reset-").data
    ++ p ++ ("\" data-plugin-name=\"").data ++ p ++
  ("\">RESET</button>\n        <button class=\"basic-plugin-btn basic-plugin-btn-stop\" id=\"basic-plugin-stop-").data
    ++ p ++ ("\" data-plugin-name=\"").data ++ p ++
  ("\">STOP</button>\n    </div>\n    <div class=\"basic-plugin-ui-feedback\" id=\"basic-plugin-feedback-").data
    ++ p ++ ("\"></div>\n</div>").data

/-- The interpolated `var plugins = [...]` array literal of the selection
script: names JSON-ish quoted (backslashes doubled, quotes escaped),
comma-space separated. -/
def jsQuoteName (name : List Char) : List Char :=
  ['"'] ++ pyReplace ['"'] ['\\', '"'] (pyReplace ['\\'] ['\\', '\\'] name) ++ ['"']

def pluginNamesJsList (plugins : List Plugin) : List Char :=
  List.intercalate ((", ").data) (plugins.map (fun p => jsQuoteName p.name))

/-- `generate_selection_js`: the empty plugin list yields the empty string.
The fixed JavaScript text surrounding the interpolated plugin-name array (not
inspected by any property below) is abstracted by `selPre`/`selPost`. -/
def generate_selection_js (selPre selPost : List Char) (plugins : List Plugin) :
    List Char :=
  if plugins.isEmpty then []
  else selPre ++ pluginNamesJsList plugins ++ selPost

/-! ### File system model, UTF-8 decoding, fail-soft reading and plugin
discovery -/

/-- The file-system state a run observes: existence, directory test,
directory listing, readability (an unreadable file models any `OSError`
raised while opening or reading), and raw byte content. -/
structure Fs where
  pathExists : List Char → Bool
  isDir : List Char → Bool
  listdir : List Char → List (List Char)
  readable : List Char → Bool
  bytes : List Char → List Nat

/-- `os.path.join` for a relative second component. -/
def pjoin (a b : List Char) : List Char :=
  a ++ ['/'] ++ b

/-- UTF-8 continuation byte (`10xxxxxx`). -/
def utf8Cont (b : Nat) : Bool :=
  128 ≤ b && b < 192

/-- Admissible second byte for each multi-byte lead (rejecting overlong
encodings, surrogates and values above U+10FFFF). -/
def utf8Byte2Ok (b b2 : Nat) : Bool :=
  if b = 224 then 160 ≤ b2 && b2 < 192
  else if b = 237 then 128 ≤ b2 && b2 < 160
  else if b = 240 then 144 ≤ b2 && b2 < 192
  else if b = 244 then 128 ≤ b2 && b2 < 144
  else utf8Cont b2

/-- Strict UTF-8 decoding (`bytes.decode("utf-8")`): `none` models
`UnicodeDecodeError`. -/
def decodeUtf8 : List Nat → Option (List Char)
  | [] => some []
  | b :: rest =>
    if b < 128 then (decodeUtf8 rest).map (fun cs => Char.ofNat b :: cs)
    else if 194 ≤ b && b ≤ 223 then
      match rest with
      | b2 :: rest2 =>
        if utf8Cont b2 then
          (decodeUtf8 rest2).map
            (fun cs => Char.ofNat ((b - 192) * 64 + (b2 - 128)) :: cs)
        else none
      | [] => none
    else if 224 ≤ b && b ≤ 239 then
      match rest with
      | b2 :: b3 :: rest3 =>
        if utf8Byte2Ok b b2 && utf8Cont b3 then
          (decodeUtf8 rest3).map
            (fun cs =>
              Char.ofNat ((b - 224) * 4096 + (b2 - 128) * 64 + (b3 - 128)) :: cs)
        else none
      | _ => none
    else if 240 ≤ b && b ≤ 244 then
      match rest with
      | b2 :: b3 :: b4 :: rest4 =>
        if utf8Byte2Ok b b2 && utf8Cont b3 && utf8Cont b4 then
          (decodeUtf8 rest4).map
            (fun cs =>
              Char.ofNat ((b - 240) * 262144 + (b2 - 128) * 4096 +
                (b3 - 128) * 64 + (b4 - 128)) :: cs)
        else none
      | _ => none
    else none

def replacementChar : Char := '�'

/-- Lossy UTF-8 decoding, fuelled so the recursion is structural (the fuel is
an upper bound on the number of bytes still to decode). -/
def decodeUtf8ReplaceAux : Nat → List Nat → List Char
  | 0, _ => []
  | Nat.succ _, [] => []
  | Nat.succ fuel, b :: rest =>
    if b < 128 then Char.ofNat b :: decodeUtf8ReplaceAux fuel rest
    else if 194 ≤ b && b ≤ 223 then
      match rest with
      | b2 :: rest2 =>
        if utf8Cont b2 then
          Char.ofNat ((b - 192) * 64 + (b2 - 128)) :: decodeUtf8ReplaceAux fuel rest2
        else replacementChar :: decodeUtf8ReplaceAux fuel rest
      | [] => [replacementChar]
    else if 224 ≤ b && b ≤ 239 then
      match rest with
      | b2 :: rest2 =>
        if utf8Byte2Ok b b2 then
          match rest2 with
          | b3 :: rest3 =>
            if utf8Cont b3 then
              Char.ofNat ((b - 224) * 4096 + (b2 - 128) * 64 + (b3 - 128)) ::
                decodeUtf8ReplaceAux fuel rest3
            else replacementChar :: decodeUtf8ReplaceAux fuel rest2
          | [] => [replacementChar]
        else replacementChar :: decodeUtf8ReplaceAux fuel rest
      | [] => [replacementChar]
    else if 240 ≤ b && b ≤ 244 then
      match rest with
      | b2 :: rest2 =>
        if utf8Byte2Ok b b2 then
          match rest2 with
          | b3 :: rest3 =>
            if utf8Cont b3 then
              match rest3 with
              | b4 :: rest4 =>
                if utf8Cont b4 then
                  Char.ofNat ((b - 240) * 262144 + (b2 - 128) * 4096 +
                    (b3 - 128) * 64 + (b4 - 128)) :: decodeUtf8ReplaceAux fuel rest4
                else replacementChar :: decodeUtf8ReplaceAux fuel rest3
              | [] => [replacementChar]
            else replacementChar :: decodeUtf8ReplaceAux fuel rest2
          | [] => [replacementChar]
        else replacementChar :: decodeUtf8ReplaceAux fuel rest
      | [] => [replacementChar]
    else replacementChar :: decodeUtf8ReplaceAux fuel rest

/-- `bytes.decode("utf-8", errors="replace")`: one U+FFFD per maximal invalid
subpart, never failing. -/
def decodeUtf8Replace (l : List Nat) : List Char :=
  decodeUtf8ReplaceAux l.length l

def warnMsg (p : List Char) : List Char :=
  ("Warning: Failed to read ").data ++ p

/-- `read_file_safe`: `none` (with no diagnostic) for a `None` path or a
missing file; a read failure prints a warning and yields `none`; otherwise
the bytes are decoded as UTF-8 with lossy fallback.  The second component
collects the warnings printed to stderr. -/
def read_file_safe (fs : Fs) : Option (List Char) → Option (List Char) × List (List Char)
  | none => (none, [])
  | some p =>
    if !(fs.pathExists p) then (none, [])
    else if !(fs.readable p) then (none, [warnMsg p])
    else
      match decodeUtf8 (fs.bytes p) with
      | some t => (some t, [])
      | none => (some (decodeUtf8Replace (fs.bytes p)), [])

/-- The per-directory-entry step of `collect_plugin_files`: `none` when the
entry is skipped (not a directory, or one of the two marker files is
missing), otherwise the discovered plugin with its resolved assets. -/
def pluginBuild (plugins_dir : List Char) (fs : Fs) (item : List Char) :
    Option Plugin :=
  let plugin_path := pjoin plugins_dir item
  if !(fs.isDir plugin_path) then none
  else if !(fs.pathExists (pjoin plugin_path (item ++ ("_plugin.c").data))) ||
      !(fs.pathExists (pjoin plugin_path (item ++ ("_plugin.h").data))) then none
  else
    let html1 := pjoin plugin_path (item ++ ((".html").data))
    let html2 := pjoin plugin_path (("index.html").data)
    let cssP := pjoin (pjoin plugin_path (("css").data)) (item ++ ((".css").data))
    let jsP := pjoin (pjoin plugin_path (("js").data)) (item ++ ((".js").data))
    some
      { name := item
        html_file :=
          if fs.pathExists html1 then some html1
          else if fs.pathExists html2 then some html2
          else none
        css_file := if fs.pathExists cssP then some cssP else none
        js_file := if fs.pathExists jsP then some jsP else none }

/-- Byte-wise (code-point) lexicographic comparison of names, as Python
string `<=`. -/
def nameLe : List Char → List Char → Bool
  | [], _ => true
  | _ :: _, [] => false
  | a :: as, b :: bs => if a = b then nameLe as bs else decide (a < b)

/-- The ordering `plugins.sort(key=lambda x: x["name"])` sorts by. -/
def pluginOrder : Plugin → Plugin → Prop :=
  fun p q => nameLe p.name q.name = true

instance : DecidableRel pluginOrder :=
  fun p q => instDecidableEqBool (nameLe p.name q.name) true

theorem nameLe_total : ∀ a b : List Char, nameLe a b = true ∨ nameLe b a = true
  | [], _ => Or.inl rfl
  | _ :: _, [] => Or.inr rfl
  | a :: as, b :: bs => by
    by_cases h : a = b
    · subst h
      rw [nameLe, if_pos rfl]
      rcases nameLe_total as bs with h1 | h1
      · exact Or.inl h1
      · right; rw [nameLe, if_pos rfl]; exact h1
    · rcases lt_trichotomy a b with hlt | heq | hgt
      · left; rw [nameLe, if_neg h]; exact decide_eq_true hlt
      · exact absurd heq h
      · right; rw [nameLe, if_neg (Ne.symm h)]; exact decide_eq_true hgt

theorem nameLe_trans : ∀ a b c : List Char,
    nameLe a b = true → nameLe b c = true → nameLe a c = true
  | [], _, _, _, _ => rfl
  | _ :: _, [], _, h1, _ => by rw [nameLe] at h1; exact absurd h1 (by decide)
  | _ :: _, _ :: _, [], _, h2 => by rw [nameLe] at h2; exact absurd h2 (by decide)
  | a :: as, b :: bs, c :: cs, h1, h2 => by
    by_cases hab : a = b
    · subst hab
      rw [nameLe, if_pos rfl] at h1
      by_cases hac : a = c
      · subst hac
        rw [nameLe, if_pos rfl] at h2 ⊢
        exact nameLe_trans as bs cs h1 h2
      · rw [nameLe, if_neg hac] at h2 ⊢
        exact h2
    · rw [nameLe, if_neg hab] at h1
      by_cases hbc : b = c
      · subst hbc
        rw [nameLe, if_neg hab]
        exact h1
      · rw [nameLe, if_neg hbc] at h2
        have hlt : a < c := lt_trans (of_decide_eq_true h1) (of_decide_eq_true h2)
        rw [nameLe, if_neg (ne_of_lt hlt)]
        exact decide_eq_true hlt

instance : IsTotal Plugin pluginOrder :=
  ⟨fun p q => nameLe_total p.name q.name⟩

instance : IsTrans Plugin pluginOrder :=
  ⟨fun _ _ _ h1 h2 => nameLe_trans _ _ _ h1 h2⟩

/-- `os.listdir`: raises `FileNotFoundError` for a missing path,
`NotADirectoryError` for an existing path that is not a directory, and
`PermissionError` for an unreadable directory; otherwise it returns the raw
listing (`Fs.listdir`).  Messages are modelled without the OS errno text. -/
def listdirM (fs : Fs) (p : List Char) : Except (List Char) (List (List Char)) :=
  if !(fs.pathExists p) then
    Except.error (("FileNotFoundError: ").data ++ p)
  else if !(fs.isDir p) then
    Except.error (("NotADirectoryError: ").data ++ p)
  else if !(fs.readable p) then
    Except.error (("PermissionError: ").data ++ p)
  else Except.ok (fs.listdir p)

/-- `collect_plugin_files`: empty result for a non-existent directory
(without error); otherwise `os.listdir` runs with no exception handling — an
existing `plugins_dir` that is not a directory or is unreadable raises and
the exception propagates out of the function — and each qualifying immediate
subdirectory becomes a plugin, the result sorted ascending by name. -/
def collect_plugin_files (plugins_dir : List Char) (fs : Fs) :
    Except (List Char) (List Plugin) :=
  if !(fs.pathExists plugins_dir) then Except.ok []
  else
    match listdirM fs plugins_dir with
    | Except.error e => Except.error e
    | Except.ok items =>
      Except.ok (List.insertionSort pluginOrder
        (items.filterMap (pluginBuild plugins_dir fs)))

/-! ### Template composition for the embedded target

The seven placeholder tokens, the structural closing anchors, and the
step-by-step resolution of `generate_html_for_embedded` (template read,
placeholder substitution with anchor-relative fallback, escaping, header
emission).  The `re.sub(r'(anchor)', content + '\n\1', s, count=1)` calls use
fixed literal anchor patterns and are modelled as first-occurrence insertion
of the content followed by a newline before the anchor. -/

def TOK_PAGE_TITLE : List Char := ("\x7b\x7bPAGE_TITLE\x7d\x7d").data
def TOK_PLUGIN_DROPDOWN : List Char := ("\x7b\x7bPLUGIN_DROPDOWN\x7d\x7d").data
def TOK_PLUGIN_LAYOUT_CSS : List Char := ("\x7b\x7bPLUGIN_LAYOUT_CSS\x7d\x7d").data
def TOK_PLUGIN_CSS : List Char := ("\x7b\x7bPLUGIN_CSS\x7d\x7d").data
def TOK_PLUGIN_HTML : List Char := ("\x7b\x7bPLUGIN_HTML\x7d\x7d").data
def TOK_PLUGIN_SELECTION_JS : List Char := ("\x7b\x7bPLUGIN_SELECTION_JS\x7d\x7d").data
def TOK_PLUGIN_JS : List Char := ("\x7b\x7bPLUGIN_JS\x7d\x7d").data

def ANCH_STYLE : List Char := ("</style>").data
def ANCH_BODY : List Char := ("</body>").data
def ANCH_SCRIPT : List Char := ("</script>").data

def pageTitleText : List Char := ("MAKERS JÖNKÖPING LJUSPARAD 2026").data

/-! #### The `re.sub` replacement template

Python processes the whole replacement string of `re.sub` as a template
(CPython `parse_template`): `\\` is halved, `\n`/`\r`/`\t`/`\a`/`\b`/`\f`/
`\v` become control characters, `\0` (with up to two more octal digits) and
three-octal-digit escapes such as `\201` become the coded character, `\1` to
`\99` are group references (only group 1 — the anchor — exists here, larger
indices are an error), `\g<...>` is a named/numbered reference, a backslash
before any other ASCII letter raises `re.error` (`bad escape`), and a
backslash before a non-letter is kept as both characters.  The template is
parsed before any matching, so a bad template aborts the call even when the
anchor is absent.  Error messages are modelled without the position suffix
CPython appends. -/

def isOctDigit (c : Char) : Bool :=
  c.isDigit && decide (c ≤ '7')

def octVal (c : Char) : Nat :=
  c.toNat - 48

def digitsToNat (l : List Char) : Nat :=
  l.foldl (fun a c => a * 10 + (c.toNat - 48)) 0

/-- The fixed replacement-template escapes (CPython `ESCAPES`). -/
def escMapChar (c : Char) : Option Char :=
  if c = 'a' then some '\x07'
  else if c = 'b' then some '\x08'
  else if c = 'f' then some '\x0c'
  else if c = 'n' then some '\n'
  else if c = 'r' then some '\r'
  else if c = 't' then some '\t'
  else if c = 'v' then some '\x0b'
  else if c = '\\' then some '\\'
  else none

/-- Template expansion against the one-group anchor pattern `(anchor)`:
group 0 (the whole match) and group 1 both expand to the anchor text.  The
fuel (an upper bound on the remaining template length) makes the recursion
structural. -/
def reTemplateExpandAux (anchor : List Char) : Nat → List Char → Except (List Char) (List Char)
  | 0, _ => Except.ok []
  | Nat.succ _, [] => Except.ok []
  | Nat.succ fuel, c :: rest =>
    if c = '\\' then
      match rest with
      | [] => Except.error (("bad escape (end of pattern)").data)
      | c2 :: rest2 =>
        if c2 = 'g' then
          match rest2 with
          | '<' :: rest3 =>
            match rest3.dropWhile (fun ch => ch != '>') with
            | [] => Except.error (("missing >, unterminated name").data)
            | _ :: rest4 =>
              let name := rest3.takeWhile (fun ch => ch != '>')
              if name.isEmpty then Except.error (("missing group name").data)
              else if name.all Char.isDigit then
                if digitsToNat name ≤ 1 then
                  (reTemplateExpandAux anchor fuel rest4).map (fun r => anchor ++ r)
                else Except.error (("invalid group reference").data)
              else Except.error (("unknown group name").data)
          | _ => Except.error (("missing <").data)
        else if c2 = '0' then
          match rest2 with
          | d2 :: rest3 =>
            if isOctDigit d2 then
              match rest3 with
              | d3 :: rest4 =>
                if isOctDigit d3 then
                  (reTemplateExpandAux anchor fuel rest4).map
                    (fun r => Char.ofNat (octVal d2 * 8 + octVal d3) :: r)
                else
                  (reTemplateExpandAux anchor fuel rest3).map
                    (fun r => Char.ofNat (octVal d2) :: r)
              | [] =>
                (reTemplateExpandAux anchor fuel rest3).map
                  (fun r => Char.ofNat (octVal d2) :: r)
            else
              (reTemplateExpandAux anchor fuel rest2).map (fun r => '\x00' :: r)
          | [] => (reTemplateExpandAux anchor fuel rest2).map (fun r => '\x00' :: r)
        else if c2.isDigit then
          match rest2 with
          | d2 :: rest3 =>
            if d2.isDigit then
              if isOctDigit c2 && isOctDigit d2 then
                match rest3 with
                | d3 :: rest4 =>
                  if isOctDigit d3 then
                    if 255 < octVal c2 * 64 + octVal d2 * 8 + octVal d3 then
                      Except.error
                        (("octal escape value outside of range 0-0o377").data)
                    else
                      (reTemplateExpandAux anchor fuel rest4).map
                        (fun r => Char.ofNat (octVal c2 * 64 + octVal d2 * 8 +
                          octVal d3) :: r)
                  else if digitsToNat [c2, d2] ≤ 1 then
                    (reTemplateExpandAux anchor fuel rest3).map (fun r => anchor ++ r)
                  else Except.error (("invalid group reference").data)
                | [] =>
                  if digitsToNat [c2, d2] ≤ 1 then
                    (reTemplateExpandAux anchor fuel rest3).map (fun r => anchor ++ r)
                  else Except.error (("invalid group reference").data)
              else if digitsToNat [c2, d2] ≤ 1 then
                (reTemplateExpandAux anchor fuel rest3).map (fun r => anchor ++ r)
              else Except.error (("invalid group reference").data)
            else if digitsToNat [c2] ≤ 1 then
              (reTemplateExpandAux anchor fuel rest2).map (fun r => anchor ++ r)
            else Except.error (("invalid group reference").data)
          | [] =>
            if digitsToNat [c2] ≤ 1 then
              (reTemplateExpandAux anchor fuel rest2).map (fun r => anchor ++ r)
            else Except.error (("invalid group reference").data)
        else
          match escMapChar c2 with
          | some ch =>
            (reTemplateExpandAux anchor fuel rest2).map (fun r => ch :: r)
          | none =>
            if c2.isAlpha then
              Except.error ((("bad escape \\").data) ++ [c2])
            else
              (reTemplateExpandAux anchor fuel rest2).map (fun r => '\\' :: c2 :: r)
    else (reTemplateExpandAux anchor fuel rest).map (fun r => c :: r)

def reTemplateExpand (anchor template : List Char) : Except (List Char) (List Char) :=
  reTemplateExpandAux anchor template.length template

/-- `re.sub(r'(anchor)', content + '\n\1', t, count=1)` for a literal anchor:
the replacement string `content + '\n\1'` is first processed as a template
(which can fail), and the result replaces the first occurrence of the
anchor — i.e. the expanded content and a newline are inserted immediately
before it.  The template is processed before matching, so a bad template is
an error even when the anchor does not occur. -/
def reSubOnceAnchor (anchor content t : List Char) : Except (List Char) (List Char) :=
  match reTemplateExpand anchor (content ++ ['\\', 'n', '\\', '1']) with
  | Except.error e => Except.error e
  | Except.ok repl => Except.ok (pyReplaceOnce anchor repl t)

def step_title (t : List Char) : List Char :=
  if occursB TOK_PAGE_TITLE t then pyReplace TOK_PAGE_TITLE pageTitleText t
  else t

def step_dropdown (dropdown t : List Char) : List Char :=
  if occursB TOK_PLUGIN_DROPDOWN t then pyReplace TOK_PLUGIN_DROPDOWN dropdown t
  else t

def step_layout_css (layout t : List Char) : Except (List Char) (List Char) :=
  if occursB TOK_PLUGIN_LAYOUT_CSS t then
    Except.ok (pyReplace TOK_PLUGIN_LAYOUT_CSS layout t)
  else if !layout.isEmpty then reSubOnceAnchor ANCH_STYLE layout t
  else Except.ok t

def step_mesh_css (meshCss t : List Char) : Except (List Char) (List Char) :=
  if !meshCss.isEmpty then reSubOnceAnchor ANCH_STYLE meshCss t
  else Except.ok t

def step_plugin_css (cssList : List (List Char)) (t : List Char) :
    Except (List Char) (List Char) :=
  if occursB TOK_PLUGIN_CSS t then
    Except.ok (pyReplace TOK_PLUGIN_CSS (List.intercalate ['\n'] cssList) t)
  else if !cssList.isEmpty then
    reSubOnceAnchor ANCH_STYLE (List.intercalate ['\n'] cssList) t
  else Except.ok t

def step_plugin_html (sections : List (List Char)) (t : List Char) :
    Except (List Char) (List Char) :=
  if occursB TOK_PLUGIN_HTML t then
    Except.ok (pyReplace TOK_PLUGIN_HTML (List.intercalate ['\n'] sections) t)
  else if !sections.isEmpty then
    reSubOnceAnchor ANCH_BODY (List.intercalate ['\n'] sections) t
  else Except.ok t

def step_selection_js (sel t : List Char) : Except (List Char) (List Char) :=
  if occursB TOK_PLUGIN_SELECTION_JS t then
    Except.ok (pyReplace TOK_PLUGIN_SELECTION_JS sel t)
  else if !sel.isEmpty then reSubOnceAnchor ANCH_SCRIPT sel t
  else Except.ok t

def step_plugin_js (jsList : List (List Char)) (t : List Char) :
    Except (List Char) (List Char) :=
  if occursB TOK_PLUGIN_JS t then
    Except.ok (pyReplace TOK_PLUGIN_JS (List.intercalate ['\n'] jsList) t)
  else if !jsList.isEmpty then
    reSubOnceAnchor ANCH_SCRIPT (List.intercalate ['\n'] jsList) t
  else Except.ok t

def step_mesh_js (meshJs t : List Char) : Except (List Char) (List Char) :=
  if !meshJs.isEmpty then reSubOnceAnchor ANCH_SCRIPT meshJs t
  else Except.ok t

/-- The placeholder-resolution sequence of `generate_html_for_embedded`, in
source order: title, dropdown, layout CSS, mesh-control CSS, plugin CSS,
plugin HTML sections, selection script, plugin JS, mesh-control JS.  An
`re.error` raised by any fallback insertion aborts the sequence (uncaught in
the source). -/
def composeEmbedded (t dropdown layout meshCss meshJs : List Char)
    (cssList sections jsList : List (List Char)) (sel : List Char) :
    Except (List Char) (List Char) :=
  (step_layout_css layout (step_dropdown dropdown (step_title t))).bind fun t1 =>
  (step_mesh_css meshCss t1).bind fun t2 =>
  (step_plugin_css cssList t2).bind fun t3 =>
  (step_plugin_html sections t3).bind fun t4 =>
  (step_selection_js sel t4).bind fun t5 =>
  (step_plugin_js jsList t5).bind fun t6 =>
  step_mesh_js meshJs t6

/-- The `"\n/* Plugin: name */\n" + content` wrapper around per-plugin CSS
and JS. -/
def pluginWrap (name content : List Char) : List Char :=
  ("\n/* Plugin: ").data ++ name ++ (" */\n").data ++ content

def basicSharedWrap (content : List Char) : List Char :=
  ("\n/* Basic Plugin UI (shared) */\n").data ++ content

/-- The `<section>` wrapper around a plugin HTML fragment (raw name in the
class, attribute-escaped name in `data-plugin-name`). -/
def sectionWrap (name content : List Char) : List Char :=
  ("<section class=\"plugin-section plugin-").data ++ name ++
    ("\" data-plugin-name=\"").data ++ htmlEscapeAttr name ++ ("\">").data ++
    content ++ ("</section>").data

/-- Plugin CSS fragments: a plugin contributes iff it has a CSS path whose
content reads as a non-empty string (Python truthiness of the read result). -/
def pluginsCssContents (fs : Fs) (ps : List Plugin) : List (List Char) :=
  ps.filterMap (fun p =>
    match p.css_file with
    | none => none
    | some f =>
      match (read_file_safe fs (some f)).1 with
      | none => none
      | some c => if c.isEmpty then none else some (pluginWrap p.name c))

def pluginsJsContents (fs : Fs) (ps : List Plugin) : List (List Char) :=
  ps.filterMap (fun p =>
    match p.js_file with
    | none => none
    | some f =>
      match (read_file_safe fs (some f)).1 with
      | none => none
      | some c => if c.isEmpty then none else some (pluginWrap p.name c))

def pluginsHtmlSections (fs : Fs) (ps : List Plugin) : List (List Char) :=
  ps.filterMap (fun p =>
    match p.html_file with
    | none => none
    | some f =>
      match (read_file_safe fs (some f)).1 with
      | none => none
      | some c => if c.isEmpty then none else some (sectionWrap p.name c))

/-- Plugins with no HTML asset at all, which receive the synthesized basic
UI. -/
def pluginsWithoutHtml (ps : List Plugin) : List Plugin :=
  ps.filter (fun p => p.html_file.isNone)

def embeddedCssList (fs : Fs) (ps : List Plugin) (basicCss : List Char) :
    List (List Char) :=
  pluginsCssContents fs ps ++
    (if (pluginsWithoutHtml ps).isEmpty then [] else [basicSharedWrap basicCss])

def embeddedJsList (fs : Fs) (ps : List Plugin) (basicJs : List Char) :
    List (List Char) :=
  pluginsJsContents fs ps ++
    (if (pluginsWithoutHtml ps).isEmpty then [] else [basicSharedWrap basicJs])

def embeddedSections (fs : Fs) (ps : List Plugin) : List (List Char) :=
  pluginsHtmlSections fs ps ++
    (if (pluginsWithoutHtml ps).isEmpty then []
     else (pluginsWithoutHtml ps).map
       (fun p => sectionWrap p.name (generate_basic_plugin_ui p.name)))

/-- The composed document of the embedded target, as a function of the
file-system state, discovered plugins, template text, and the fixed generated
fragments (layout CSS, mesh-control CSS/JS, shared basic-UI CSS/JS, selection
script text), which are pure constants in the source and are abstracted as
parameters here. -/
def composeFromPlugins (fs : Fs) (ps : List Plugin) (tc : List Char)
    (layout meshCss meshJs basicCss basicJs selPre selPost : List Char) :
    Except (List Char) (List Char) :=
  composeEmbedded tc (generate_dropdown_html ps) layout meshCss meshJs
    (embeddedCssList fs ps basicCss) (embeddedSections fs ps)
    (embeddedJsList fs ps basicJs) (generate_selection_js selPre selPost ps)

/-- `os.path.basename` for slash-separated paths. -/
def basename (p : List Char) : List Char :=
  (p.reverse.takeWhile (fun c => c != '/')).reverse

def hdrA : List Char :=
  ("/* Generated HTML page file\n *\n * This file was automatically generated. Do not edit manually.\n * Template: ").data

def hdrB : List Char :=
  ("\n * Plugins directory: ").data

def hdrC : List Char :=
  ("\n *\n * Copyright (c) 2025 the_louie\n */\n\n#ifndef GENERATED_HTML_PAGE_H\n#define GENERATED_HTML_PAGE_H\n\n#include <stddef.h>\n\n/* Embedded HTML page content as C string literal */\nstatic const char html_page[] = \"").data

def hdrD : List Char :=
  ("\";\n\n#endif /* GENERATED_HTML_PAGE_H */\n").data

/-- The generated C header of the embedded target. -/
def embeddedHeaderContent (templateBase pluginsBase escaped : List Char) :
    List Char :=
  hdrA ++ templateBase ++ hdrB ++ pluginsBase ++ hdrC ++ escaped ++ hdrD

/-- `generate_html_for_embedded`: missing template is a fatal error (exit 1,
nothing written); an exception out of discovery (`os.listdir`), out of a
fallback `re.sub` (bad replacement template), or out of the escaping step
(NUL byte) propagates uncaught — exit 1 with nothing written, since the
write happens last; otherwise the emitted header content is returned. -/
def generate_html_for_embedded (fs : Fs) (template_file plugins_dir : List Char)
    (layout meshCss meshJs basicCss basicJs selPre selPost : List Char) :
    Except (List Char) (List Char) :=
  match (read_file_safe fs (some template_file)).1 with
  | none =>
    Except.error (("Error: Template file not found: ").data ++ template_file)
  | some tc =>
    match collect_plugin_files plugins_dir fs with
    | Except.error e => Except.error e
    | Except.ok ps =>
      match composeFromPlugins fs ps tc layout meshCss meshJs basicCss
          basicJs selPre selPost with
      | Except.error e => Except.error e
      | Except.ok composed =>
        match escape_c_string composed with
        | Except.error m => Except.error m
        | Except.ok esc =>
          Except.ok (embeddedHeaderContent (basename template_file)
            (basename plugins_dir) esc)

/-- The generated header of `convert_file_to_c_string` (the per-asset
converter), including its companion size constant line. -/
def convertHeaderContent (inputBase inputPath headerGuard fileTypeUpper
    varName escaped : List Char) : List Char :=
  ("/* Generated header file from ").data ++ inputBase ++
  ("\n *\n * This file was automatically generated. Do not edit manually.\n * Source: ").data
    ++ inputPath ++
  ("\n *\n * Copyright (c) 2025 the_louie\n */\n\n#ifndef ").data ++ headerGuard ++
  ("\n#define ").data ++ headerGuard ++
  ("\n\n#include <stddef.h>\n\n/* Embedded ").data ++ fileTypeUpper ++
  (" content as C string literal */\nstatic const char ").data ++ varName ++
  ("[] = \"").data ++ escaped ++
  ("\";\nstatic const size_t ").data ++ varName ++
  ("_size = sizeof(").data ++ varName ++
  (") - 1;  /* Exclude null terminator */\n\n#endif /* ").data ++ headerGuard ++
  (" */\n").data

/-! ### Claim C1: escape / unescape round trip -/

/-- C1 (counterexample): the round trip fails on the NUL-free two-character
text backslash-`n`.  Escaping yields backslash-backslash-`n`; the sequential
unescape replaces the double backslash first, after which the remaining
backslash-`n` pair is turned into a newline, so a literal newline comes back
instead of the original two characters. -/
theorem c1_roundtrip_counterexample :
    ('\x00' ∉ (['\\', 'n'] : List Char)) ∧
      escape_c_string ['\\', 'n'] = Except.ok ['\\', '\\', 'n'] ∧
      unescape_c_string ['\\', '\\', 'n'] = ['\n'] ∧
      (['\n'] : List Char) ≠ ['\\', 'n'] :=
  ⟨by decide, rfl, rfl, by decide⟩

/-- C1 (amended): for every text that contains no NUL byte and no backslash,
escaping with `escape_c_string` and unescaping with `unescape_c_string`
returns the original text.  (With a backslash in the input the sequential
replace chain mis-parses the escape boundaries, as the counterexample
shows.) -/
theorem c1_roundtrip_no_backslash (t : List Char) (h0 : '\x00' ∉ t)
    (hb : '\\' ∉ t) :
    ∃ e, escape_c_string t = Except.ok e ∧ unescape_c_string e = t := by
  refine ⟨t.flatMap escChar1, ?_, unescape_escape_of_no_backslash t hb⟩
  rw [escape_c_string_eq, if_neg h0]

/-- C1 witness: the round trip at a concrete NUL-free, backslash-free text. -/
theorem c1_roundtrip_witness :
    ('\x00' ∉ (['h', 'i', '"', '\n', '\t'] : List Char)) ∧
      ('\\' ∉ (['h', 'i', '"', '\n', '\t'] : List Char)) ∧
      ∃ e, escape_c_string ['h', 'i', '"', '\n', '\t'] = Except.ok e ∧
        unescape_c_string e = ['h', 'i', '"', '\n', '\t'] :=
  ⟨by decide, by decide,
    c1_roundtrip_no_backslash ['h', 'i', '"', '\n', '\t'] (by decide) (by decide)⟩

/-! ### Claim C10: escaped output is single-line with protected quoting -/

/-- C10: on every input `escape_c_string` accepts (no NUL byte), the returned
text contains no literal newline, carriage return or tab, and every double
quote in it is immediately preceded by a backslash. -/
theorem c10_escaped_single_line (t : List Char) (h0 : '\x00' ∉ t) :
    ∃ e, escape_c_string t = Except.ok e ∧
      '\n' ∉ e ∧ '\r' ∉ e ∧ '\t' ∉ e ∧ quotesEscaped e = true := by
  refine ⟨t.flatMap escChar1, ?_, ?_, ?_, ?_, quotesEscaped_escaped t⟩
  · rw [escape_c_string_eq, if_neg h0]
  · exact ctl_not_mem_escaped t '\n' (Or.inl rfl)
  · exact ctl_not_mem_escaped t '\r' (Or.inr (Or.inl rfl))
  · exact ctl_not_mem_escaped t '\t' (Or.inr (Or.inr rfl))

/-- C10 witness: the property at a concrete input holding quotes, newlines,
tabs and backslashes. -/
theorem c10_escaped_single_line_witness :
    ('\x00' ∉ (['a', '"', '\n', '\\', '\t', 'z'] : List Char)) ∧
      ∃ e, escape_c_string ['a', '"', '\n', '\\', '\t', 'z'] = Except.ok e ∧
        '\n' ∉ e ∧ '\r' ∉ e ∧ '\t' ∉ e ∧ quotesEscaped e = true :=
  ⟨by decide, c10_escaped_single_line ['a', '"', '\n', '\\', '\t', 'z'] (by decide)⟩

/-! ### Claim C5: NUL bytes are the one fatal content error -/

/-- C5: `escape_c_string` fails iff its input contains a NUL byte; and in the
embedded pipeline, a NUL byte in the composed document makes the run fail
with the NUL diagnostic (an `Except.error` result models the uncaught
`ValueError`, which exits with status 1; the output write happens only after
escaping succeeds, so nothing is written). -/
theorem c5_nul_fatal :
    (∀ t : List Char, (∃ m, escape_c_string t = Except.error m) ↔ '\x00' ∈ t) ∧
    (∀ (fs : Fs) (template_file plugins_dir layout meshCss meshJs basicCss
        basicJs selPre selPost tc : List Char) (ps : List Plugin)
        (composed : List Char),
      (read_file_safe fs (some template_file)).1 = some tc →
      collect_plugin_files plugins_dir fs = Except.ok ps →
      composeFromPlugins fs ps tc layout meshCss meshJs basicCss basicJs
        selPre selPost = Except.ok composed →
      '\x00' ∈ composed →
      generate_html_for_embedded fs template_file plugins_dir layout meshCss
        meshJs basicCss basicJs selPre selPost = Except.error nulErrMsg) := by
  constructor
  · intro t
    rw [escape_c_string_eq]
    by_cases h : '\x00' ∈ t
    · rw [if_pos h]
      exact ⟨fun _ => h, fun _ => ⟨nulErrMsg, rfl⟩⟩
    · rw [if_neg h]
      refine ⟨fun ⟨m, hm⟩ => ?_, fun hc => absurd hc h⟩
      exact absurd hm (by simp)
  · intro fs tf pd l mc mj bc bj sp ss tc ps composed hread hcollect hcompose hnul
    rw [generate_html_for_embedded, hread]
    dsimp only
    rw [hcollect]
    dsimp only
    rw [hcompose]
    dsimp only
    rw [escape_c_string_eq, if_pos hnul]

/-- File system for the C5 witness: a readable template file whose single
byte decodes to NUL, and no plugins directory. -/
def fsNulTemplate : Fs where
  pathExists := fun p => p == ("tmpl").data
  isDir := fun _ => false
  listdir := fun _ => []
  readable := fun _ => true
  bytes := fun _ => [0]

/-- C5 witness: the embedded run on the NUL-containing template fails with
the NUL diagnostic. -/
theorem c5_nul_fatal_witness :
    (∃ m, escape_c_string ['\x00'] = Except.error m) ∧
      (read_file_safe fsNulTemplate (some (("tmpl").data))).1 = some ['\x00'] ∧
      collect_plugin_files (("plugins").data) fsNulTemplate = Except.ok [] ∧
      composeFromPlugins fsNulTemplate [] ['\x00'] [] [] [] [] [] [] [] =
        Except.ok ['\x00'] ∧
      '\x00' ∈ (['\x00'] : List Char) ∧
      generate_html_for_embedded fsNulTemplate (("tmpl").data) (("plugins").data)
        [] [] [] [] [] [] [] = Except.error nulErrMsg :=
  ⟨(c5_nul_fatal.1 ['\x00']).mpr (by decide), by decide, rfl, rfl, by decide,
    c5_nul_fatal.2 fsNulTemplate (("tmpl").data) (("plugins").data)
      [] [] [] [] [] [] [] ['\x00'] [] ['\x00'] (by decide) rfl rfl (by decide)⟩

/-! ### Claim C2: the embedded-target artifact -/

theorem occursB_sandwich (needle pre suf : List Char) :
    occursB needle (pre ++ needle ++ suf) = true := by
  induction pre with
  | nil =>
    cases needle with
    | nil =>
      cases suf with
      | nil => rfl
      | cons c rest => simp [occursB]
    | cons n ns =>
      rw [List.nil_append]
      show occursB (n :: ns) (n :: (ns ++ suf)) = true
      rw [occursB]
      have : (n :: ns).isPrefixOf (n :: (ns ++ suf)) = true :=
        List.isPrefixOf_iff_prefix.mpr ⟨suf, by simp⟩
      rw [this, Bool.true_or]
  | cons c pre ih =>
    rw [List.cons_append, List.cons_append]
    cases needle with
    | nil => simp [occursB]
    | cons n ns =>
      rw [occursB, ih, Bool.or_true]

/-- C2 (counterexample): the artifact emitted by `generate_html_for_embedded`
contains no companion size constant at all — at a concrete input its text
does not even contain the four characters `size` (so in particular no
`size_t` declaration and no `sizeof` expression). -/
theorem c2_size_constant_counterexample :
    occursB (("size").data)
      (embeddedHeaderContent (("page_template.html").data) (("plugins").data)
        (("x").data)) = false := by decide

/-- C2 (amended): the embedded-target emitter writes a single header-guarded
artifact consisting of fixed text around the template basename, the plugins
directory basename and the escaped composed document (held in a `static
const char html_page[]` array), but no companion size constant — the fixed
text contains no occurrence of `size`.  The companion size constant equal to
the array storage size minus one is emitted only by the per-asset converter
`convert_file_to_c_string`, whose artifact always contains the
`_size = sizeof(` declaration. -/
theorem c2_embedded_header_no_size_constant :
    (∀ templateBase pluginsBase escaped : List Char,
      embeddedHeaderContent templateBase pluginsBase escaped =
        hdrA ++ templateBase ++ hdrB ++ pluginsBase ++ hdrC ++ escaped ++ hdrD) ∧
    occursB (("#ifndef GENERATED_HTML_PAGE_H").data) hdrC = true ∧
    occursB (("#define GENERATED_HTML_PAGE_H").data) hdrC = true ∧
    occursB (("static const char html_page[] = \"").data) hdrC = true ∧
    occursB (("\";").data) hdrD = true ∧
    occursB (("#endif").data) hdrD = true ∧
    occursB (("size").data) (hdrA ++ hdrB ++ hdrC ++ hdrD) = false ∧
    (∀ inputBase inputPath headerGuard fileTypeUpper varName escaped : List Char,
      occursB (("_size = sizeof(").data)
        (convertHeaderContent inputBase inputPath headerGuard fileTypeUpper
          varName escaped) = true) := by
  refine ⟨fun _ _ _ => rfl, by decide, by decide, by decide, by decide, by decide,
    by decide, ?_⟩
  intro ib ip hg ft vn esc
  have h := occursB_sandwich (("_size = sizeof(").data)
    (("/* Generated header file from ").data ++ ib ++
      ("\n *\n * This file was automatically generated. Do not edit manually.\n * Source: ").data
        ++ ip ++
      ("\n *\n * Copyright (c) 2025 the_louie\n */\n\n#ifndef ").data ++ hg ++
      ("\n#define ").data ++ hg ++
      ("\n\n#include <stddef.h>\n\n/* Embedded ").data ++ ft ++
      (" content as C string literal */\nstatic const char ").data ++ vn ++
      ("[] = \"").data ++ esc ++ ("\";\nstatic const size_t ").data ++ vn)
    (vn ++ (") - 1;  /* Exclude null terminator */\n\n#endif /* ").data ++ hg ++
      (" */\n").data)
  have heq : convertHeaderContent ib ip hg ft vn esc =
      (("/* Generated header file from ").data ++ ib ++
        ("\n *\n * This file was automatically generated. Do not edit manually.\n * Source: ").data
          ++ ip ++
        ("\n *\n * Copyright (c) 2025 the_louie\n */\n\n#ifndef ").data ++ hg ++
        ("\n#define ").data ++ hg ++
        ("\n\n#include <stddef.h>\n\n/* Embedded ").data ++ ft ++
        (" content as C string literal */\nstatic const char ").data ++ vn ++
        ("[] = \"").data ++ esc ++ ("\";\nstatic const size_t ").data ++ vn) ++
      (("_size = sizeof(").data) ++
      (vn ++ (") - 1;  /* Exclude null terminator */\n\n#endif /* ").data ++ hg ++
        (" */\n").data) := by
    rw [convertHeaderContent]
    have hsplit1 : (("\";\nstatic const size_t ").data : List Char) =
        (("\";").data) ++ (("\nstatic const size_t ").data) := by decide
    simp only [List.append_assoc]
  rw [heq]
  exact h

/-! ### Claim C3: empty plugin set -/

theorem if_occurs_replace_empty (tok : List Char) (ht : tok ≠ []) (t : List Char) :
    (if occursB tok t then pyReplace tok [] t else t) = pyReplace tok [] t := by
  cases tok with
  | nil => exact absurd rfl ht
  | cons n ns =>
    by_cases h : occursB (n :: ns) t = true
    · rw [if_pos h]
    · rw [if_neg h]
      exact (pyReplace_of_not_occurs n ns [] t (Bool.eq_false_iff.mpr h)).symm

theorem if_occurs_replace_empty_ok (tok : List Char) (ht : tok ≠ [])
    (t : List Char) :
    (if occursB tok t then (Except.ok (pyReplace tok [] t) :
        Except (List Char) (List Char))
      else Except.ok t) = Except.ok (pyReplace tok [] t) := by
  cases tok with
  | nil => exact absurd rfl ht
  | cons n ns =>
    by_cases h : occursB (n :: ns) t = true
    · rw [if_pos h]
    · rw [if_neg h, pyReplace_of_not_occurs n ns [] t (Bool.eq_false_iff.mpr h)]

/-- C3: when discovery yields no plugins, every plugin-driven insertion point
resolves to empty content — the dropdown, plugin-CSS, plugin-HTML,
selection-script and plugin-JS steps reduce to erasing their placeholder
tokens, with no fallback insertion — and the composed document is exactly the
template transformed by the unconditional non-plugin steps (title
substitution, layout CSS, mesh-control CSS and JS) plus those erasures; all
other template text is unchanged. -/
theorem c3_empty_pluginset (fs : Fs) (plugins_dir tc layout meshCss meshJs
    basicCss basicJs selPre selPost : List Char)
    (_h : collect_plugin_files plugins_dir fs = Except.ok []) :
    composeFromPlugins fs [] tc layout meshCss meshJs basicCss basicJs
      selPre selPost =
    (step_layout_css layout
        (pyReplace TOK_PLUGIN_DROPDOWN [] (step_title tc))).bind fun t1 =>
    (step_mesh_css meshCss t1).bind fun t2 =>
    step_mesh_js meshJs
      (pyReplace TOK_PLUGIN_JS []
        (pyReplace TOK_PLUGIN_SELECTION_JS []
          (pyReplace TOK_PLUGIN_HTML []
            (pyReplace TOK_PLUGIN_CSS [] t2)))) := by
  rw [composeFromPlugins]
  have hd : generate_dropdown_html [] = [] := rfl
  have hs : generate_selection_js selPre selPost [] = [] := rfl
  have hcl : embeddedCssList fs [] basicCss = [] := rfl
  have hse : embeddedSections fs [] = [] := rfl
  have hjl : embeddedJsList fs [] basicJs = [] := rfl
  rw [hd, hs, hcl, hse, hjl, composeEmbedded]
  have e1 : ∀ s, step_dropdown [] s = pyReplace TOK_PLUGIN_DROPDOWN [] s :=
    fun s => if_occurs_replace_empty TOK_PLUGIN_DROPDOWN (by decide) s
  have e2 : ∀ s, step_plugin_css [] s = Except.ok (pyReplace TOK_PLUGIN_CSS [] s) :=
    fun s => if_occurs_replace_empty_ok TOK_PLUGIN_CSS (by decide) s
  have e3 : ∀ s, step_plugin_html [] s =
      Except.ok (pyReplace TOK_PLUGIN_HTML [] s) :=
    fun s => if_occurs_replace_empty_ok TOK_PLUGIN_HTML (by decide) s
  have e4 : ∀ s, step_selection_js [] s =
      Except.ok (pyReplace TOK_PLUGIN_SELECTION_JS [] s) :=
    fun s => if_occurs_replace_empty_ok TOK_PLUGIN_SELECTION_JS (by decide) s
  have e5 : ∀ s, step_plugin_js [] s = Except.ok (pyReplace TOK_PLUGIN_JS [] s) :=
    fun s => if_occurs_replace_empty_ok TOK_PLUGIN_JS (by decide) s
  rw [e1]
  refine congrArg _ (funext fun t1 => congrArg _ (funext fun t2 => ?_))
  rw [e2]
  show (step_plugin_html [] (pyReplace TOK_PLUGIN_CSS [] t2)).bind _ = _
  rw [e3]
  show (step_selection_js [] _).bind _ = _
  rw [e4]
  show (step_plugin_js [] _).bind _ = _
  rw [e5]
  rfl

/-- File system with nothing in it (discovery yields no plugins). -/
def fsEmptyPlugins : Fs where
  pathExists := fun _ => false
  isDir := fun _ => false
  listdir := fun _ => []
  readable := fun _ => false
  bytes := fun _ => []

/-- C3 witness: composition over the empty plugin set at a concrete
template. -/
theorem c3_empty_pluginset_witness :
    collect_plugin_files (("p").data) fsEmptyPlugins = Except.ok [] ∧
      composeFromPlugins fsEmptyPlugins []
        (("a\x7b\x7bPLUGIN_CSS\x7d\x7db").data) (("L").data) (("M").data)
        (("J").data) [] [] [] [] =
      ((step_layout_css (("L").data)
          (pyReplace TOK_PLUGIN_DROPDOWN []
            (step_title (("a\x7b\x7bPLUGIN_CSS\x7d\x7db").data)))).bind fun t1 =>
        (step_mesh_css (("M").data) t1).bind fun t2 =>
        step_mesh_js (("J").data)
          (pyReplace TOK_PLUGIN_JS []
            (pyReplace TOK_PLUGIN_SELECTION_JS []
              (pyReplace TOK_PLUGIN_HTML []
                (pyReplace TOK_PLUGIN_CSS [] t2))))) :=
  ⟨rfl,
    c3_empty_pluginset fsEmptyPlugins (("p").data)
      (("a\x7b\x7bPLUGIN_CSS\x7d\x7db").data) (("L").data) (("M").data)
      (("J").data) [] [] [] [] rfl⟩

/-! ### Claim C6: token present means substitution, never fallback -/

/-- C6 (counterexample): on a template containing the page-title token twice,
composition does not substitute only the first occurrence — Python
`str.replace` replaces every occurrence. -/
theorem c6_first_occurrence_counterexample :
    step_title (("\x7b\x7bPAGE_TITLE\x7d\x7d \x7b\x7bPAGE_TITLE\x7d\x7d").data) ≠
      pyReplaceOnce TOK_PAGE_TITLE pageTitleText
        (("\x7b\x7bPAGE_TITLE\x7d\x7d \x7b\x7bPAGE_TITLE\x7d\x7d").data) := by
  decide

/-- C6 (amended): for each of the seven insertion points, if the template
contains that point's placeholder token, composition resolves the point by
substituting every occurrence of the token (hence the first, which in the
expected single-occurrence templates is the only one) and never additionally
performs a fallback anchor-relative insertion for that point. -/
theorem c6_token_no_fallback :
    (∀ t, occursB TOK_PAGE_TITLE t = true →
      step_title t = pyReplace TOK_PAGE_TITLE pageTitleText t) ∧
    (∀ d t, occursB TOK_PLUGIN_DROPDOWN t = true →
      step_dropdown d t = pyReplace TOK_PLUGIN_DROPDOWN d t) ∧
    (∀ layout t, occursB TOK_PLUGIN_LAYOUT_CSS t = true →
      step_layout_css layout t =
        Except.ok (pyReplace TOK_PLUGIN_LAYOUT_CSS layout t)) ∧
    (∀ cssList t, occursB TOK_PLUGIN_CSS t = true →
      step_plugin_css cssList t =
        Except.ok (pyReplace TOK_PLUGIN_CSS (List.intercalate ['\n'] cssList) t)) ∧
    (∀ sections t, occursB TOK_PLUGIN_HTML t = true →
      step_plugin_html sections t =
        Except.ok (pyReplace TOK_PLUGIN_HTML (List.intercalate ['\n'] sections) t)) ∧
    (∀ sel t, occursB TOK_PLUGIN_SELECTION_JS t = true →
      step_selection_js sel t =
        Except.ok (pyReplace TOK_PLUGIN_SELECTION_JS sel t)) ∧
    (∀ jsList t, occursB TOK_PLUGIN_JS t = true →
      step_plugin_js jsList t =
        Except.ok (pyReplace TOK_PLUGIN_JS (List.intercalate ['\n'] jsList) t)) := by
  refine ⟨?_, ?_, ?_, ?_, ?_, ?_, ?_⟩
  · intro t h; rw [step_title, if_pos h]
  · intro d t h; rw [step_dropdown, if_pos h]
  · intro layout t h; rw [step_layout_css, if_pos h]
  · intro cssList t h; rw [step_plugin_css, if_pos h]
  · intro sections t h; rw [step_plugin_html, if_pos h]
  · intro sel t h; rw [step_selection_js, if_pos h]
  · intro jsList t h; rw [step_plugin_js, if_pos h]

/-- C6 witness: each token-bearing step applied to its own token as the
template. -/
theorem c6_token_no_fallback_witness :
    step_title TOK_PAGE_TITLE =
      pyReplace TOK_PAGE_TITLE pageTitleText TOK_PAGE_TITLE ∧
    step_dropdown (("d").data) TOK_PLUGIN_DROPDOWN =
      pyReplace TOK_PLUGIN_DROPDOWN (("d").data) TOK_PLUGIN_DROPDOWN ∧
    step_layout_css (("L").data) TOK_PLUGIN_LAYOUT_CSS =
      Except.ok (pyReplace TOK_PLUGIN_LAYOUT_CSS (("L").data)
        TOK_PLUGIN_LAYOUT_CSS) ∧
    step_plugin_css [("c").data] TOK_PLUGIN_CSS =
      Except.ok (pyReplace TOK_PLUGIN_CSS (List.intercalate ['\n'] [("c").data])
        TOK_PLUGIN_CSS) ∧
    step_plugin_html [("h").data] TOK_PLUGIN_HTML =
      Except.ok (pyReplace TOK_PLUGIN_HTML (List.intercalate ['\n'] [("h").data])
        TOK_PLUGIN_HTML) ∧
    step_selection_js (("s").data) TOK_PLUGIN_SELECTION_JS =
      Except.ok (pyReplace TOK_PLUGIN_SELECTION_JS (("s").data)
        TOK_PLUGIN_SELECTION_JS) ∧
    step_plugin_js [("j").data] TOK_PLUGIN_JS =
      Except.ok (pyReplace TOK_PLUGIN_JS (List.intercalate ['\n'] [("j").data])
        TOK_PLUGIN_JS) :=
  ⟨c6_token_no_fallback.1 _ (by decide),
    c6_token_no_fallback.2.1 _ _ (by decide),
    c6_token_no_fallback.2.2.1 _ _ (by decide),
    c6_token_no_fallback.2.2.2.1 _ _ (by decide),
    c6_token_no_fallback.2.2.2.2.1 _ _ (by decide),
    c6_token_no_fallback.2.2.2.2.2.1 _ _ (by decide),
    c6_token_no_fallback.2.2.2.2.2.2 _ _ (by decide)⟩

/-! ### Claim C7: fallback insertion before the anchor -/

theorem reTemplateExpandAux_tail (anchor : List Char) (k : Nat) :
    reTemplateExpandAux anchor (Nat.succ (Nat.succ k)) ['\\', '1'] =
      Except.ok anchor := by
  simp [reTemplateExpandAux, digitsToNat, Except.map]

theorem reTemplateExpandAux_cons_ne (anchor : List Char) (fuel : Nat)
    (c : Char) (rest : List Char) (hc : ¬ c = '\\') :
    reTemplateExpandAux anchor (Nat.succ fuel) (c :: rest) =
      (reTemplateExpandAux anchor fuel rest).map (fun r => c :: r) := by
  simp only [reTemplateExpandAux]
  rw [if_neg hc]

theorem reTemplateExpandAux_suffix (anchor : List Char) (k : Nat) :
    reTemplateExpandAux anchor (k + 4) ['\\', 'n', '\\', '1'] =
      Except.ok ('\n' :: anchor) := by
  have h1 : digitsToNat ['1'] ≤ 1 := by decide
  show reTemplateExpandAux anchor (Nat.succ (k + 3)) ['\\', 'n', '\\', '1'] = _
  simp [reTemplateExpandAux, escMapChar, h1, Except.map]

/-- On backslash-free content the replacement template `content + '\n\1'`
expands to the content, a newline and the group-1 text (the anchor). -/
theorem reTemplateExpand_no_backslash_aux (anchor : List Char) :
    ∀ content : List Char, '\\' ∉ content →
      reTemplateExpandAux anchor (content.length + 4)
        (content ++ ['\\', 'n', '\\', '1']) =
        Except.ok (content ++ '\n' :: anchor) := by
  intro content
  induction content with
  | nil =>
    intro _
    exact reTemplateExpandAux_suffix anchor 0
  | cons c rest ih =>
    intro hb
    have hc : c ≠ '\\' := fun h => hb (h ▸ List.mem_cons_self c rest)
    have hrest : '\\' ∉ rest := fun h => hb (List.mem_cons_of_mem c h)
    show reTemplateExpandAux anchor (Nat.succ (rest.length + 4))
      (c :: (rest ++ ['\\', 'n', '\\', '1'])) = _
    rw [reTemplateExpandAux_cons_ne anchor (rest.length + 4) c
      (rest ++ ['\\', 'n', '\\', '1']) hc, ih hrest]
    rfl

theorem reTemplateExpand_no_backslash (anchor content : List Char)
    (hb : '\\' ∉ content) :
    reTemplateExpand anchor (content ++ ['\\', 'n', '\\', '1']) =
      Except.ok (content ++ '\n' :: anchor) := by
  rw [reTemplateExpand]
  have hlen : (content ++ ['\\', 'n', '\\', '1']).length = content.length + 4 := by
    simp
  rw [hlen]
  exact reTemplateExpand_no_backslash_aux anchor content hb

theorem fallback_insert (anchor content t : List Char) (hne : anchor ≠ [])
    (hb : '\\' ∉ content) (hcount : countOcc anchor t = 1) :
    ∃ pre suf, t = pre ++ anchor ++ suf ∧
      reSubOnceAnchor anchor content t =
        Except.ok (pre ++ (content ++ '\n' :: anchor) ++ suf) := by
  cases anchor with
  | nil => exact absurd rfl hne
  | cons n ns =>
    have hocc : occursB (n :: ns) t = true :=
      occursB_of_countOcc_pos n ns t (by rw [hcount]; exact Nat.one_pos)
    obtain ⟨pre, suf, hdec, hres⟩ :=
      pyReplaceOnce_decomp n ns (content ++ '\n' :: (n :: ns)) t hocc
    refine ⟨pre, suf, hdec, ?_⟩
    rw [reSubOnceAnchor, reTemplateExpand_no_backslash (n :: ns) content hb]
    dsimp only
    rw [hres]

/-- C7 (counterexample): with the layout token absent, non-empty content and
exactly one `</style>` anchor, the fallback does not insert the generated
content when it holds backslashes: `re.sub` processes the replacement as a
template, so content holding a backslash before a letter raises `re.error`
(no insertion, run aborts), and a double backslash is halved, so what is
inserted differs from the generated content. -/
theorem c7_template_processing_counterexample :
    occursB TOK_PLUGIN_LAYOUT_CSS (("a</style>b").data) = false ∧
      (['\\', 'd'] : List Char) ≠ [] ∧
      countOcc ANCH_STYLE (("a</style>b").data) = 1 ∧
      step_layout_css ['\\', 'd'] (("a</style>b").data) =
        Except.error (("bad escape \\d").data) ∧
      step_layout_css ['\\', '\\', 'd'] (("a</style>b").data) =
        Except.ok (("a\\d\n</style>b").data) ∧
      (("a\\d\n</style>b").data : List Char) ≠
        ("a").data ++ (['\\', '\\', 'd'] ++ '\n' :: ANCH_STYLE) ++ ("b").data :=
  ⟨by decide, by decide, by decide, rfl, rfl, by decide⟩

/-- C7 (amended): for each fallback-bearing insertion point whose generated
content is non-empty and free of backslashes, if the template lacks the
point's token and contains exactly one matching structural closing anchor,
the step inserts the content exactly once, immediately before that anchor.
(For content with backslashes, `re.sub` replacement-template processing
rewrites the inserted text — doubled backslashes are halved, octal escapes
become coded characters — or raises `re.error`, as the counterexample
shows.) -/
theorem c7_fallback_single_insert :
    (∀ layout t, occursB TOK_PLUGIN_LAYOUT_CSS t = false → layout ≠ [] →
      '\\' ∉ layout → countOcc ANCH_STYLE t = 1 →
      ∃ pre suf, t = pre ++ ANCH_STYLE ++ suf ∧
        step_layout_css layout t =
          Except.ok (pre ++ (layout ++ '\n' :: ANCH_STYLE) ++ suf)) ∧
    (∀ cssList t, occursB TOK_PLUGIN_CSS t = false →
      cssList ≠ ([] : List (List Char)) →
      '\\' ∉ List.intercalate ['\n'] cssList → countOcc ANCH_STYLE t = 1 →
      ∃ pre suf, t = pre ++ ANCH_STYLE ++ suf ∧
        step_plugin_css cssList t =
          Except.ok
            (pre ++ (List.intercalate ['\n'] cssList ++ '\n' :: ANCH_STYLE) ++ suf)) ∧
    (∀ sections t, occursB TOK_PLUGIN_HTML t = false →
      sections ≠ ([] : List (List Char)) →
      '\\' ∉ List.intercalate ['\n'] sections → countOcc ANCH_BODY t = 1 →
      ∃ pre suf, t = pre ++ ANCH_BODY ++ suf ∧
        step_plugin_html sections t =
          Except.ok
            (pre ++ (List.intercalate ['\n'] sections ++ '\n' :: ANCH_BODY) ++ suf)) ∧
    (∀ sel t, occursB TOK_PLUGIN_SELECTION_JS t = false → sel ≠ [] →
      '\\' ∉ sel → countOcc ANCH_SCRIPT t = 1 →
      ∃ pre suf, t = pre ++ ANCH_SCRIPT ++ suf ∧
        step_selection_js sel t =
          Except.ok (pre ++ (sel ++ '\n' :: ANCH_SCRIPT) ++ suf)) ∧
    (∀ jsList t, occursB TOK_PLUGIN_JS t = false →
      jsList ≠ ([] : List (List Char)) →
      '\\' ∉ List.intercalate ['\n'] jsList → countOcc ANCH_SCRIPT t = 1 →
      ∃ pre suf, t = pre ++ ANCH_SCRIPT ++ suf ∧
        step_plugin_js jsList t =
          Except.ok
            (pre ++ (List.intercalate ['\n'] jsList ++ '\n' :: ANCH_SCRIPT) ++ suf)) := by
  refine ⟨?_, ?_, ?_, ?_, ?_⟩
  · intro layout t h1 h2 hb h3
    have hie : layout.isEmpty = false := by
      cases layout with
      | nil => exact absurd rfl h2
      | cons _ _ => rfl
    have hstep : step_layout_css layout t = reSubOnceAnchor ANCH_STYLE layout t := by
      rw [step_layout_css, if_neg (fun hc => Bool.false_ne_true (h1 ▸ hc)),
        if_pos (by rw [hie]; rfl)]
    rw [hstep]
    exact fallback_insert ANCH_STYLE layout t (by decide) hb h3
  · intro cssList t h1 h2 hb h3
    have hie : cssList.isEmpty = false := by
      cases cssList with
      | nil => exact absurd rfl h2
      | cons _ _ => rfl
    have hstep : step_plugin_css cssList t =
        reSubOnceAnchor ANCH_STYLE (List.intercalate ['\n'] cssList) t := by
      rw [step_plugin_css, if_neg (fun hc => Bool.false_ne_true (h1 ▸ hc)),
        if_pos (by rw [hie]; rfl)]
    rw [hstep]
    exact fallback_insert ANCH_STYLE (List.intercalate ['\n'] cssList) t
      (by decide) hb h3
  · intro sections t h1 h2 hb h3
    have hie : sections.isEmpty = false := by
      cases sections with
      | nil => exact absurd rfl h2
      | cons _ _ => rfl
    have hstep : step_plugin_html sections t =
        reSubOnceAnchor ANCH_BODY (List.intercalate ['\n'] sections) t := by
      rw [step_plugin_html, if_neg (fun hc => Bool.false_ne_true (h1 ▸ hc)),
        if_pos (by rw [hie]; rfl)]
    rw [hstep]
    exact fallback_insert ANCH_BODY (List.intercalate ['\n'] sections) t
      (by decide) hb h3
  · intro sel t h1 h2 hb h3
    have hie : sel.isEmpty = false := by
      cases sel with
      | nil => exact absurd rfl h2
      | cons _ _ => rfl
    have hstep : step_selection_js sel t = reSubOnceAnchor ANCH_SCRIPT sel t := by
      rw [step_selection_js, if_neg (fun hc => Bool.false_ne_true (h1 ▸ hc)),
        if_pos (by rw [hie]; rfl)]
    rw [hstep]
    exact fallback_insert ANCH_SCRIPT sel t (by decide) hb h3
  · intro jsList t h1 h2 hb h3
    have hie : jsList.isEmpty = false := by
      cases jsList with
      | nil => exact absurd rfl h2
      | cons _ _ => rfl
    have hstep : step_plugin_js jsList t =
        reSubOnceAnchor ANCH_SCRIPT (List.intercalate ['\n'] jsList) t := by
      rw [step_plugin_js, if_neg (fun hc => Bool.false_ne_true (h1 ▸ hc)),
        if_pos (by rw [hie]; rfl)]
    rw [hstep]
    exact fallback_insert ANCH_SCRIPT (List.intercalate ['\n'] jsList) t
      (by decide) hb h3

/-- C7 witness: each fallback step on a token-free template with exactly one
matching anchor and backslash-free content. -/
theorem c7_fallback_single_insert_witness :
    (∃ pre suf, (("a</style>b").data) = pre ++ ANCH_STYLE ++ suf ∧
      step_layout_css (("L").data) (("a</style>b").data) =
        Except.ok (pre ++ ((("L").data) ++ '\n' :: ANCH_STYLE) ++ suf)) ∧
    (∃ pre suf, (("a</style>b").data) = pre ++ ANCH_STYLE ++ suf ∧
      step_plugin_css [("c").data] (("a</style>b").data) =
        Except.ok (pre ++
          (List.intercalate ['\n'] [("c").data] ++ '\n' :: ANCH_STYLE) ++ suf)) ∧
    (∃ pre suf, (("a</body>b").data) = pre ++ ANCH_BODY ++ suf ∧
      step_plugin_html [("h").data] (("a</body>b").data) =
        Except.ok (pre ++
          (List.intercalate ['\n'] [("h").data] ++ '\n' :: ANCH_BODY) ++ suf)) ∧
    (∃ pre suf, (("a</script>b").data) = pre ++ ANCH_SCRIPT ++ suf ∧
      step_selection_js (("s").data) (("a</script>b").data) =
        Except.ok (pre ++ ((("s").data) ++ '\n' :: ANCH_SCRIPT) ++ suf)) ∧
    (∃ pre suf, (("a</script>b").data) = pre ++ ANCH_SCRIPT ++ suf ∧
      step_plugin_js [("j").data] (("a</script>b").data) =
        Except.ok (pre ++
          (List.intercalate ['\n'] [("j").data] ++ '\n' :: ANCH_SCRIPT) ++ suf)) :=
  ⟨c7_fallback_single_insert.1 _ _ (by decide) (by decide) (by decide) (by decide),
    c7_fallback_single_insert.2.1 _ _ (by decide) (by decide) (by decide)
      (by decide),
    c7_fallback_single_insert.2.2.1 _ _ (by decide) (by decide) (by decide)
      (by decide),
    c7_fallback_single_insert.2.2.2.1 _ _ (by decide) (by decide) (by decide)
      (by decide),
    c7_fallback_single_insert.2.2.2.2 _ _ (by decide) (by decide) (by decide)
      (by decide)⟩

/-! ### Claim C8: plugin discovery -/

theorem pluginBuild_inv (dir : List Char) (fs : Fs) (i : List Char) (q : Plugin)
    (h : pluginBuild dir fs i = some q) :
    q.name = i ∧ fs.isDir (pjoin dir i) = true ∧
    fs.pathExists (pjoin (pjoin dir i) (i ++ (("_plugin.c").data))) = true ∧
    fs.pathExists (pjoin (pjoin dir i) (i ++ (("_plugin.h").data))) = true ∧
    q.html_file =
      (if fs.pathExists (pjoin (pjoin dir i) (i ++ ((".html").data)))
       then some (pjoin (pjoin dir i) (i ++ ((".html").data)))
       else if fs.pathExists (pjoin (pjoin dir i) (("index.html").data))
       then some (pjoin (pjoin dir i) (("index.html").data))
       else none) ∧
    q.css_file =
      (if fs.pathExists (pjoin (pjoin (pjoin dir i) (("css").data))
          (i ++ ((".css").data)))
       then some (pjoin (pjoin (pjoin dir i) (("css").data)) (i ++ ((".css").data)))
       else none) ∧
    q.js_file =
      (if fs.pathExists (pjoin (pjoin (pjoin dir i) (("js").data))
          (i ++ ((".js").data)))
       then some (pjoin (pjoin (pjoin dir i) (("js").data)) (i ++ ((".js").data)))
       else none) := by
  rw [pluginBuild] at h
  cases hb1 : fs.isDir (pjoin dir i) with
  | false => rw [hb1, if_pos (by decide)] at h; exact Option.noConfusion h
  | true =>
    rw [hb1, if_neg (by decide)] at h
    cases hb2 : fs.pathExists (pjoin (pjoin dir i) (i ++ (("_plugin.c").data))) with
    | false => rw [hb2, if_pos (by simp)] at h; exact Option.noConfusion h
    | true =>
      rw [hb2] at h
      cases hb3 : fs.pathExists (pjoin (pjoin dir i) (i ++ (("_plugin.h").data))) with
      | false => rw [hb3, if_pos (by decide)] at h; exact Option.noConfusion h
      | true =>
        rw [hb3, if_neg (by decide)] at h
        have hq := Option.some.inj h
        subst hq
        exact ⟨rfl, rfl, rfl, rfl, rfl, rfl, rfl⟩

/-- Inversion of a successful discovery run: either the plugins directory is
missing (empty result), or it exists, is a directory and is readable, and the
result is the sorted filter-map of the listing. -/
theorem collect_ok_inv (dir : List Char) (fs : Fs) (res : List Plugin)
    (hok : collect_plugin_files dir fs = Except.ok res) :
    (fs.pathExists dir = false ∧ res = []) ∨
    (fs.pathExists dir = true ∧ fs.isDir dir = true ∧ fs.readable dir = true ∧
      res = List.insertionSort pluginOrder
        ((fs.listdir dir).filterMap (pluginBuild dir fs))) := by
  rw [collect_plugin_files] at hok
  rcases Bool.eq_false_or_eq_true (fs.pathExists dir) with hex | hex
  · rw [hex, if_neg (by decide), listdirM, hex, if_neg (by decide)] at hok
    rcases Bool.eq_false_or_eq_true (fs.isDir dir) with hd | hd
    · rw [hd, if_neg (by decide)] at hok
      rcases Bool.eq_false_or_eq_true (fs.readable dir) with hr | hr
      · rw [hr, if_neg (by decide)] at hok
        exact Or.inr ⟨hex, hd, hr, (Except.ok.inj hok).symm⟩
      · rw [hr, if_pos (by decide)] at hok
        exact Except.noConfusion hok
    · rw [hd, if_pos (by decide)] at hok
      exact Except.noConfusion hok
  · rw [hex, if_pos (by decide)] at hok
    exact Or.inl ⟨hex, (Except.ok.inj hok).symm⟩

theorem collect_pairwise (dir : List Char) (fs : Fs) (res : List Plugin)
    (hok : collect_plugin_files dir fs = Except.ok res) :
    res.Pairwise pluginOrder := by
  rcases collect_ok_inv dir fs res hok with ⟨_, hres⟩ | ⟨_, _, _, hres⟩
  · rw [hres]; exact List.Pairwise.nil
  · rw [hres]; exact List.sorted_insertionSort pluginOrder _

theorem mem_collect_iff (fs : Fs) (dir : List Char) (res : List Plugin)
    (hok : collect_plugin_files dir fs = Except.ok res) (q : Plugin) :
    q ∈ res ↔
      fs.pathExists dir = true ∧ q.name ∈ fs.listdir dir ∧
      pluginBuild dir fs q.name = some q := by
  rcases collect_ok_inv dir fs res hok with ⟨hex, hres⟩ | ⟨hex, _, _, hres⟩
  · rw [hres]
    simp [hex]
  · rw [hres, (List.perm_insertionSort pluginOrder _).mem_iff, List.mem_filterMap]
    constructor
    · rintro ⟨i, hi, hb⟩
      have hname := (pluginBuild_inv dir fs i q hb).1
      exact ⟨hex, hname ▸ hi, hname ▸ hb⟩
    · rintro ⟨_, hi, hb⟩
      exact ⟨q.name, hi, hb⟩

theorem filterMap_names_sublist (dir : List Char) (fs : Fs) :
    ∀ l : List (List Char),
      List.Sublist ((l.filterMap (pluginBuild dir fs)).map Plugin.name) l := by
  intro l
  induction l with
  | nil => simp
  | cons a l ih =>
    rw [List.filterMap_cons]
    cases hb : pluginBuild dir fs a with
    | none => exact ih.cons a
    | some p =>
      rw [List.map_cons, (pluginBuild_inv dir fs a p hb).1]
      exact ih.cons₂ a

theorem collect_names_nodup (dir : List Char) (fs : Fs) (res : List Plugin)
    (hnd : (fs.listdir dir).Nodup)
    (hok : collect_plugin_files dir fs = Except.ok res) :
    (res.map Plugin.name).Nodup := by
  rcases collect_ok_inv dir fs res hok with ⟨_, hres⟩ | ⟨_, _, _, hres⟩
  · rw [hres]; exact List.nodup_nil
  · rw [hres]
    have hperm :=
      ((List.perm_insertionSort pluginOrder
        ((fs.listdir dir).filterMap (pluginBuild dir fs))).map Plugin.name)
    exact hperm.nodup_iff.mpr
      (hnd.sublist (filterMap_names_sublist dir fs (fs.listdir dir)))

/-- C8: discovery looks at each immediate subdirectory name; a name is
included iff the plugins directory exists, the name is listed, the entry is a
directory and both marker files `name/name_plugin.c`, `name/name_plugin.h`
exist; the HTML asset resolves to `name/name.html`, else `name/index.html`,
else none; and the result is sorted ascending by name with pairwise distinct
names (given the directory listing is duplicate-free, as a real directory
is). -/
theorem c8_discovery (fs : Fs) (dir : List Char)
    (hnd : (fs.listdir dir).Nodup) (res : List Plugin)
    (hok : collect_plugin_files dir fs = Except.ok res) :
    res.Pairwise pluginOrder ∧
    (res.map Plugin.name).Nodup ∧
    (∀ q : Plugin, q ∈ res ↔
      fs.pathExists dir = true ∧ q.name ∈ fs.listdir dir ∧
      pluginBuild dir fs q.name = some q) ∧
    (∀ q ∈ res,
      fs.isDir (pjoin dir q.name) = true ∧
      fs.pathExists (pjoin (pjoin dir q.name) (q.name ++ (("_plugin.c").data))) = true ∧
      fs.pathExists (pjoin (pjoin dir q.name) (q.name ++ (("_plugin.h").data))) = true ∧
      q.html_file =
        (if fs.pathExists (pjoin (pjoin dir q.name) (q.name ++ ((".html").data)))
         then some (pjoin (pjoin dir q.name) (q.name ++ ((".html").data)))
         else if fs.pathExists (pjoin (pjoin dir q.name) (("index.html").data))
         then some (pjoin (pjoin dir q.name) (("index.html").data))
         else none)) := by
  refine ⟨collect_pairwise dir fs res hok, collect_names_nodup dir fs res hnd hok,
    mem_collect_iff fs dir res hok, ?_⟩
  intro q hq
  have hb := ((mem_collect_iff fs dir res hok q).mp hq).2.2
  have hinv := pluginBuild_inv dir fs q.name q hb
  exact ⟨hinv.2.1, hinv.2.2.1, hinv.2.2.2.1, hinv.2.2.2.2.1⟩

/-- File system with two valid plugin directories (listed out of order) under
`pl`: `a` with a custom `a.html` and `b` with marker files only. -/
def fsTwoPlugins : Fs where
  pathExists := fun p =>
    (p == ("pl").data) || (p == ("pl/a/a_plugin.c").data) ||
    (p == ("pl/a/a_plugin.h").data) || (p == ("pl/b/b_plugin.c").data) ||
    (p == ("pl/b/b_plugin.h").data) || (p == ("pl/a/a.html").data)
  isDir := fun p =>
    (p == ("pl").data) || (p == ("pl/a").data) || (p == ("pl/b").data)
  listdir := fun _ => [("b").data, ("a").data]
  readable := fun _ => true
  bytes := fun _ => [104]

def pluginA : Plugin :=
  { name := ("a").data, html_file := some (("pl/a/a.html").data)
    css_file := none, js_file := none }

def pluginB : Plugin :=
  { name := ("b").data, html_file := none, css_file := none, js_file := none }

/-- C8 witness: discovery over the concrete two-plugin directory (listed out
of order, returned sorted). -/
theorem c8_discovery_witness :
    collect_plugin_files (("pl").data) fsTwoPlugins =
      Except.ok [pluginA, pluginB] ∧
    ([pluginA, pluginB] : List Plugin).Pairwise pluginOrder ∧
    (([pluginA, pluginB] : List Plugin).map Plugin.name).Nodup ∧
    (∀ q : Plugin, q ∈ ([pluginA, pluginB] : List Plugin) ↔
      fsTwoPlugins.pathExists (("pl").data) = true ∧
      q.name ∈ fsTwoPlugins.listdir (("pl").data) ∧
      pluginBuild (("pl").data) fsTwoPlugins q.name = some q) ∧
    (∀ q ∈ ([pluginA, pluginB] : List Plugin),
      fsTwoPlugins.isDir (pjoin (("pl").data) q.name) = true ∧
      fsTwoPlugins.pathExists (pjoin (pjoin (("pl").data) q.name)
        (q.name ++ (("_plugin.c").data))) = true ∧
      fsTwoPlugins.pathExists (pjoin (pjoin (("pl").data) q.name)
        (q.name ++ (("_plugin.h").data))) = true ∧
      q.html_file =
        (if fsTwoPlugins.pathExists (pjoin (pjoin (("pl").data) q.name)
            (q.name ++ ((".html").data)))
         then some (pjoin (pjoin (("pl").data) q.name) (q.name ++ ((".html").data)))
         else if fsTwoPlugins.pathExists (pjoin (pjoin (("pl").data) q.name)
            (("index.html").data))
         then some (pjoin (pjoin (("pl").data) q.name) (("index.html").data))
         else none)) :=
  ⟨rfl, c8_discovery fsTwoPlugins (("pl").data) (by decide) [pluginA, pluginB] rfl⟩

/-! ### Claim C4: dropdown generation -/

theorem options_foldl_gen (l : List Plugin) :
    ∀ acc : List (List Char), acc ≠ [] →
      l.foldl (fun acc q => acc ++ [mkOption acc.isEmpty q]) acc =
        acc ++ l.map (mkOption false) := by
  induction l with
  | nil => intro acc _; simp
  | cons q l ih =>
    intro acc h
    rw [List.foldl_cons]
    have hne : acc.isEmpty = false := by
      cases acc with
      | nil => exact absurd rfl h
      | cons _ _ => rfl
    rw [hne, ih (acc ++ [mkOption false q]) (by simp), List.map_cons]
    simp

theorem options_foldl (p : Plugin) (rest : List Plugin) :
    (p :: rest).foldl (fun acc q => acc ++ [mkOption acc.isEmpty q]) [] =
      mkOption true p :: rest.map (mkOption false) := by
  rw [List.foldl_cons]
  have h := options_foldl_gen rest [mkOption true p] (by simp)
  simpa using h

/-- An option as claim C4 describes it: the label HTML-attribute-escaped for
all four of `&`, `<`, `>`, `"`. -/
def mkOptionClaim (isFirst : Bool) (p : Plugin) : List Char :=
  ("<option value=\"").data ++ htmlEscapeAttr p.name ++ ("\"").data ++
    (if isFirst then (" selected").data else []) ++ (">").data ++
    htmlEscapeAttr (format_plugin_display_name p.name) ++ ("</option>").data

/-- The dropdown markup exactly as claim C4 words it: options in list order,
first selected, value and label both escaped for `&`, `<`, `>`, `"`. -/
def claimC4Dropdown (plugins : List Plugin) : List Char :=
  match plugins with
  | [] => []
  | p :: rest =>
    dropdownPre ++
      List.intercalate ['\n'] (mkOptionClaim true p :: rest.map (mkOptionClaim false)) ++
      dropdownSuf

def quotedPlugin : Plugin :=
  { name := ['a', '"', 'b'], html_file := none, css_file := none, js_file := none }

/-- C4 (counterexample): for a plugin whose name contains a double quote the
generated markup is not the claim's markup — the code escapes the option
label only for `&`, `<`, `>`, leaving the quote unescaped in the label
text. -/
theorem c4_label_escaping_counterexample :
    generate_dropdown_html [quotedPlugin] ≠ claimC4Dropdown [quotedPlugin] := by
  decide

/-- C4 (amended): for every non-empty PluginSet (as discovery returns it,
over a duplicate-free directory listing), the dropdown contains one option
per plugin in list order — which is strictly ascending byte-wise name
order — exactly the first option carries the `selected` marker, option
values are HTML-attribute-escaped for `&`, `<`, `>`, `"`, and option labels
(the display names) are escaped for `&`, `<`, `>` only, the double quote
being left as is. -/
theorem c4_dropdown_structure (fs : Fs) (dir : List Char)
    (hnd : (fs.listdir dir).Nodup) (p : Plugin) (rest : List Plugin)
    (hcollect : collect_plugin_files dir fs = Except.ok (p :: rest)) :
    generate_dropdown_html (p :: rest) =
      dropdownPre ++
        List.intercalate ['\n'] (mkOption true p :: rest.map (mkOption false)) ++
        dropdownSuf ∧
    (p :: rest).Chain' (fun a b => nameLe a.name b.name = true ∧ a.name ≠ b.name) := by
  constructor
  · rw [generate_dropdown_html, if_neg (by simp)]
    dsimp only
    rw [options_foldl]
  · have hpw : (p :: rest).Pairwise pluginOrder :=
      collect_pairwise dir fs (p :: rest) hcollect
    have hnodup : ((p :: rest).map Plugin.name).Nodup :=
      collect_names_nodup dir fs (p :: rest) hnd hcollect
    have hpw2 : (p :: rest).Pairwise (fun a b => a.name ≠ b.name) :=
      List.pairwise_map.mp hnodup
    exact ((hpw.and hpw2).chain')

/-- C4 witness: the dropdown over the concrete two-plugin discovery
result. -/
theorem c4_dropdown_structure_witness :
    collect_plugin_files (("pl").data) fsTwoPlugins =
      Except.ok [pluginA, pluginB] ∧
      (generate_dropdown_html [pluginA, pluginB] =
        dropdownPre ++
          List.intercalate ['\n']
            (mkOption true pluginA :: [pluginB].map (mkOption false)) ++
          dropdownSuf ∧
      ([pluginA, pluginB]).Chain'
        (fun a b => nameLe a.name b.name = true ∧ a.name ≠ b.name)) :=
  ⟨rfl,
    c4_dropdown_structure fsTwoPlugins (("pl").data) (by decide) pluginA
      [pluginB] rfl⟩

/-! ### Claim C9: loading is fail-soft; discovery is fail-soft only for a
missing directory -/

/-- File system in which the plugins-directory path exists but is a regular
file, as when a stray file sits where the plugins directory is expected. -/
def fsFileAsPluginsDir : Fs where
  pathExists := fun p => p == ("pl").data
  isDir := fun _ => false
  listdir := fun _ => []
  readable := fun _ => true
  bytes := fun _ => []

/-- C9 (counterexample): discovery does abort for some plugins-directory
paths — `collect_plugin_files` guards only against a missing directory, and
`os.listdir` is called with no exception handling, so an existing
`plugins_dir` that is a regular file raises `NotADirectoryError` and the
exception propagates out (terminating the real run). -/
theorem c9_discovery_abort_counterexample :
    fsFileAsPluginsDir.pathExists (("pl").data) = true ∧
      fsFileAsPluginsDir.isDir (("pl").data) = false ∧
      collect_plugin_files (("pl").data) fsFileAsPluginsDir =
        Except.error ((("NotADirectoryError: ").data) ++ (("pl").data)) :=
  ⟨rfl, rfl, rfl⟩

/-- C9 (amended): asset loading never aborts — a `None` path and a missing
file yield the absent result with no diagnostic, an unreadable file yields a
warning and the absent result, bytes that fail strict UTF-8 decoding are
decoded with lossy replacement, and decodable bytes yield the decoded text.
Discovery is fail-soft only with respect to the directory's contents: a
non-existent plugins directory yields the empty plugin set without error,
and discovery aborts exactly when the plugins-directory path exists but
`os.listdir` raises on it (not a directory, or not readable). -/
theorem c9_fail_soft :
    (∀ (fs : Fs) (dir : List Char), fs.pathExists dir = false →
      collect_plugin_files dir fs = Except.ok []) ∧
    (∀ (fs : Fs) (dir : List Char),
      (∃ e, collect_plugin_files dir fs = Except.error e) ↔
        (fs.pathExists dir = true ∧
          (fs.isDir dir = false ∨ fs.readable dir = false))) ∧
    (∀ fs : Fs, read_file_safe fs none = (none, [])) ∧
    (∀ (fs : Fs) (p : List Char), fs.pathExists p = false →
      read_file_safe fs (some p) = (none, [])) ∧
    (∀ (fs : Fs) (p : List Char), fs.pathExists p = true →
      fs.readable p = false →
      read_file_safe fs (some p) = (none, [warnMsg p])) ∧
    (∀ (fs : Fs) (p : List Char), fs.pathExists p = true →
      fs.readable p = true → decodeUtf8 (fs.bytes p) = none →
      read_file_safe fs (some p) =
        (some (decodeUtf8Replace (fs.bytes p)), [])) ∧
    (∀ (fs : Fs) (p : List Char) (t : List Char), fs.pathExists p = true →
      fs.readable p = true → decodeUtf8 (fs.bytes p) = some t →
      read_file_safe fs (some p) = (some t, [])) := by
  refine ⟨?_, ?_, ?_, ?_, ?_, ?_, ?_⟩
  · intro fs dir h
    rw [collect_plugin_files, h, if_pos (by decide)]
  · intro fs dir
    rw [collect_plugin_files]
    rcases Bool.eq_false_or_eq_true (fs.pathExists dir) with hex | hex
    · rw [hex, if_neg (by decide), listdirM, hex, if_neg (by decide)]
      rcases Bool.eq_false_or_eq_true (fs.isDir dir) with hd | hd
      · rw [hd, if_neg (by decide)]
        rcases Bool.eq_false_or_eq_true (fs.readable dir) with hr | hr
        · rw [hr, if_neg (by decide)]
          simp
        · rw [hr, if_pos (by decide)]
          simp
      · rw [hd, if_pos (by decide)]
        simp
    · rw [hex, if_pos (by decide)]
      simp
  · intro fs
    rfl
  · intro fs p h
    rw [read_file_safe, h, if_pos (by decide)]
  · intro fs p h1 h2
    rw [read_file_safe, h1, h2, if_neg (by decide), if_pos (by decide)]
  · intro fs p h1 h2 h3
    rw [read_file_safe, h1, h2, if_neg (by decide), if_neg (by decide), h3]
  · intro fs p t h1 h2 h3
    rw [read_file_safe, h1, h2, if_neg (by decide), if_neg (by decide), h3]

/-- File system exercising every loader outcome: `u` exists but is
unreadable, `x` holds an invalid UTF-8 byte, `g` holds the byte for `h`;
everything else is missing. -/
def fsMixed : Fs where
  pathExists := fun p =>
    (p == ("u").data) || (p == ("x").data) || (p == ("g").data)
  isDir := fun _ => false
  listdir := fun _ => []
  readable := fun p => !(p == ("u").data)
  bytes := fun p => if p == ("x").data then [255] else [104]

/-- C9 witness: each loader outcome at a concrete input, the fail-soft
missing-directory case, and the abort characterization at the
file-as-plugins-directory instance. -/
theorem c9_fail_soft_witness :
    collect_plugin_files (("d").data) fsMixed = Except.ok [] ∧
      (∃ e, collect_plugin_files (("pl").data) fsFileAsPluginsDir =
        Except.error e) ∧
      read_file_safe fsMixed none = (none, []) ∧
      read_file_safe fsMixed (some (("m").data)) = (none, []) ∧
      read_file_safe fsMixed (some (("u").data)) =
        (none, [warnMsg (("u").data)]) ∧
      read_file_safe fsMixed (some (("x").data)) =
        (some (decodeUtf8Replace (fsMixed.bytes (("x").data))), []) ∧
      read_file_safe fsMixed (some (("g").data)) = (some ['h'], []) :=
  ⟨c9_fail_soft.1 fsMixed (("d").data) (by decide),
    (c9_fail_soft.2.1 fsFileAsPluginsDir (("pl").data)).mpr
      ⟨by decide, Or.inl (by decide)⟩,
    c9_fail_soft.2.2.1 fsMixed,
    c9_fail_soft.2.2.2.1 fsMixed (("m").data) (by decide),
    c9_fail_soft.2.2.2.2.1 fsMixed (("u").data) (by decide) (by decide),
    c9_fail_soft.2.2.2.2.2.1 fsMixed (("x").data) (by decide) (by decide)
      (by decide),
    c9_fail_soft.2.2.2.2.2.2 fsMixed (("g").data) ['h'] (by decide) (by decide)
      (by decide)⟩

end Lyktparad
